import Mathlib

/-!
# Verification of the Rentmatrix deterministic core

Shallow embedding of the two deterministic components of the repository:

* `SLAMapperAgent` (from `src/agent/core_agents/sla_mapper_agent.py`):
  maps a priority score and a submission time to SLA deadlines, walking a
  business-hours calendar.
* `PriorityCalculatorAgent` (from
  `src/triage_lambda/agent/core_agents/priority_calculator_agent.py`):
  computes a hazard-based priority score from a classification plus context.

Modelling conventions:

* Python `datetime` is modelled at second resolution by `DT` (day index,
  hour, minute, second).  Day `0` is a Monday, so `day % 7` coincides with
  Python's `weekday()` (Monday = 0).  Microseconds are omitted: the mapper
  zeroes them in exactly the places it zeroes seconds, and no computation
  in the source produces a sub-second offset.
* Python floats are modelled as exact rationals (`ℚ`); every constant in
  the source is a short decimal literal and the claims under study are
  about the algebraic structure of the computation.
* The two `while` loops of the SLA mapper are embedded with explicit fuel
  and return `Option DT`; `none` models non-termination of the source
  loop.  The day-skipping loop gets fuel 7 (seven consecutive days cover
  every weekday residue, so if seven steps fail the Python loop never
  exits); the hour-consuming loop gets fuel `hours_needed + 1`, enough
  whenever each business day consumes at least one hour.
* The regex/key-factor text layer of the priority calculator is abstracted
  by one Boolean per detected concept (`Concepts`): the source consults the
  description text only through `_check_keywords`/`_check_key_factors`,
  each factor reading one fixed disjunction of patterns, so every concrete
  run of the source corresponds to one assignment of these Booleans.
  `descLen` keeps the description length used by the confidence step.
-/

namespace Rentmatrix

/-- Python `datetime` at second resolution. `day` counts days from an
epoch whose day 0 is a Monday, so `day % 7` is Python's `weekday()`. -/
structure DT where
  day : ℕ
  hour : ℕ
  minute : ℕ
  second : ℕ
deriving DecidableEq, Repr

/-- Total seconds since the epoch. -/
def DT.toSecs (t : DT) : ℕ :=
  ((t.day * 24 + t.hour) * 60 + t.minute) * 60 + t.second

/-- Rebuild a `DT` from total seconds (inverse of `toSecs` on well-formed
values). -/
def DT.ofSecs (s : ℕ) : DT :=
  ⟨s / 86400, s % 86400 / 3600, s % 3600 / 60, s % 60⟩

/-- `t + timedelta(hours=q)` for a rational number of hours, at second
resolution (every occurrence in the source adds an integral number of
seconds). -/
def DT.addHoursQ (t : DT) (q : ℚ) : DT :=
  DT.ofSecs (((t.toSecs : ℤ) + ⌊q * 3600⌋).toNat)

/-- Timestamp order: the order of the underlying instants. -/
def DT.le (t u : DT) : Prop := t.toSecs ≤ u.toSecs

instance : LE DT := ⟨DT.le⟩

instance (t u : DT) : Decidable (t ≤ u) :=
  inferInstanceAs (Decidable (t.toSecs ≤ u.toSecs))

/-! ## SLA mapper (`sla_mapper_agent.py`) -/

/-- `SLAResult` dataclass. -/
structure SLAResult where
  tier : String
  response_deadline : DT
  resolution_deadline : DT
  response_hours : ℕ
  resolution_hours : ℕ
  business_hours_only : Bool
  vendor_tier : String
deriving DecidableEq, Repr

/-- Configuration state of `SLAMapperAgent`. -/
structure SLAMapperAgent where
  business_hours_start : ℕ
  business_hours_end : ℕ
  business_days : List ℕ
deriving DecidableEq, Repr

/-- `SLAMapperAgent.__init__`: stores the hours verbatim; a missing or
empty (falsy) `business_days` argument is replaced by `[0,1,2,3,4]`
(`business_days or [0, 1, 2, 3, 4]`).  No validation is performed. -/
def SLAMapperAgent.make (s e : ℕ) (bd : Option (List ℕ)) : SLAMapperAgent :=
  ⟨s, e, match bd with
    | none => [0, 1, 2, 3, 4]
    | some [] => [0, 1, 2, 3, 4]
    | some l => l⟩

/-- `_is_business_time`. -/
def SLAMapperAgent.isBusinessTime (a : SLAMapperAgent) (t : DT) : Bool :=
  decide (t.day % 7 ∈ a.business_days) &&
    decide (a.business_hours_start ≤ t.hour) &&
    decide (t.hour < a.business_hours_end)

/-- The `while next_day.weekday() not in self.business_days` loop of
`_move_to_next_business_period`, with fuel. -/
def skipNonBusiness (days : List ℕ) : ℕ → DT → Option DT
  | 0, _ => none
  | f + 1, t =>
    if t.day % 7 ∈ days then some t
    else skipNonBusiness days f ⟨t.day + 1, t.hour, t.minute, t.second⟩

/-- `_move_to_next_business_period`. -/
def SLAMapperAgent.moveToNextBusinessPeriod (a : SLAMapperAgent) (t : DT) :
    Option DT :=
  if t.hour < a.business_hours_start ∧ t.day % 7 ∈ a.business_days then
    some ⟨t.day, a.business_hours_start, 0, 0⟩
  else
    skipNonBusiness a.business_days 7 ⟨t.day + 1, a.business_hours_start, 0, 0⟩

/-- The `while hours_remaining > 0` loop of
`_calculate_business_hours_deadline`, with fuel. -/
def SLAMapperAgent.walk (a : SLAMapperAgent) : ℕ → DT → ℚ → Option DT
  | 0, _, _ => none
  | f + 1, cur, rem =>
    if rem ≤ 0 then some cur
    else if a.isBusinessTime cur then
      let dayEnd : DT := ⟨cur.day, a.business_hours_end, 0, 0⟩
      let avail : ℚ := ((dayEnd.toSecs : ℚ) - (cur.toSecs : ℚ)) / 3600
      if rem ≤ avail then some (cur.addHoursQ rem)
      else
        match a.moveToNextBusinessPeriod dayEnd with
        | some c => a.walk f c (rem - avail)
        | none => none
    else
      match a.moveToNextBusinessPeriod cur with
      | some c => a.walk f c rem
      | none => none

/-- `_calculate_business_hours_deadline`: snap to the next business
period (unconditionally, as the source does), then consume hours. -/
def SLAMapperAgent.calcBusinessHoursDeadline (a : SLAMapperAgent)
    (t : DT) (hours : ℕ) : Option DT :=
  match a.moveToNextBusinessPeriod t with
  | none => none
  | some c => a.walk (hours + 1) c (hours : ℚ)

/-- The tier table of `calculate_sla`:
`(tier, response_hours, resolution_hours, business_hours_only, vendor_tier)`. -/
def slaParams (score : ℚ) : String × ℕ × ℕ × Bool × String :=
  if 80 ≤ score then ("EMERGENCY", 4, 24, false, "Premium only")
  else if 60 ≤ score then ("HIGH", 24, 48, true, "Preferred + Premium")
  else if 25 ≤ score then ("MEDIUM", 48, 120, true, "All qualified")
  else ("LOW", 72, 168, true, "Any available")

/-- `calculate_sla`. -/
def SLAMapperAgent.calculateSla (a : SLAMapperAgent) (score : ℚ)
    (t : DT) : Option SLAResult :=
  let p := slaParams score
  if p.2.2.2.1 then
    match a.calcBusinessHoursDeadline t p.2.1,
        a.calcBusinessHoursDeadline t p.2.2.1 with
    | some r, some s => some ⟨p.1, r, s, p.2.1, p.2.2.1, p.2.2.2.1, p.2.2.2.2⟩
    | _, _ => none
  else
    some ⟨p.1, t.addHoursQ (p.2.1 : ℚ), t.addHoursQ (p.2.2.1 : ℚ),
      p.2.1, p.2.2.1, p.2.2.2.1, p.2.2.2.2⟩

/-- A configuration the spec calls valid: the daily window is non-empty
and lies inside a day, and the weekday list is a non-empty set of actual
weekdays. -/
def ValidCfg (a : SLAMapperAgent) : Prop :=
  a.business_hours_start < a.business_hours_end ∧
    a.business_hours_end ≤ 23 ∧
    a.business_days ≠ [] ∧
    ∀ d ∈ a.business_days, d < 7

instance (a : SLAMapperAgent) : Decidable (ValidCfg a) := by
  unfold ValidCfg; infer_instance

/-- The default configuration (9–17, Monday–Friday). -/
def defaultAgent : SLAMapperAgent := SLAMapperAgent.make 9 17 none

/-- A point at the opening of a business day: this is the shape of every
value produced by `moveToNextBusinessPeriod`. -/
def BizStart (a : SLAMapperAgent) (p : DT) : Prop :=
  p.hour = a.business_hours_start ∧ p.minute = 0 ∧ p.second = 0 ∧
    p.day % 7 ∈ a.business_days

instance (a : SLAMapperAgent) (p : DT) : Decidable (BizStart a p) := by
  unfold BizStart; infer_instance

/-! ## Priority calculator (`priority_calculator_agent.py`) -/

/-- `PriorityFactor` dataclass (the free-text `reason` field is omitted:
nothing downstream reads it). -/
structure PriorityFactor where
  name : String
  hr : ℚ
  category : String
deriving DecidableEq, Repr

/-- `InteractionEffect` dataclass (the free-text `trigger` field is
omitted: nothing downstream reads it). -/
structure InteractionEffect where
  name : String
  ir : ℚ
deriving DecidableEq, Repr

/-- Outcome of the text layer: for each catalogue concept, whether its
regex patterns match the description or its trigger words appear in a key
factor (`_check_keywords`/`_check_key_factors` disjunction, one Boolean
per factor condition). -/
structure Concepts where
  gasLeak : Bool
  fireSmoke : Bool
  carbonMonoxide : Bool
  electricalShock : Bool
  sewage : Bool
  waterSpreading : Bool
  ceilingDrip : Bool
  gettingWorse : Bool
  evacuated : Bool
  noHeat : Bool
  noAc : Bool
  noWater : Bool
  noPower : Bool
  noToilet : Bool
  lockedOut : Bool
  structural : Bool
  thirdTime : Bool
  repairFailed : Bool
deriving DecidableEq, Repr

/-- `context["tenant"]`. -/
structure Tenant where
  hasMedicalCondition : Bool
  hasInfant : Bool
  isElderly : Bool
  isPregnant : Bool
  age : ℤ
deriving DecidableEq, Repr

/-- `context["property"]`. `floor = 0` stands for a missing/falsy floor
(Python `if floor and floor > 1` is equivalent to `floor > 1` over
integers with `None ↦ 0`). -/
structure PropertyInfo where
  floor : ℤ
  totalUnits : ℤ
deriving DecidableEq, Repr

/-- `context["timing"]`. -/
structure Timing where
  isLateNight : Bool
  isHoliday : Bool
  isAfterHours : Bool
  isWeekend : Bool
deriving DecidableEq, Repr

/-- `context["history"]`. -/
structure History where
  recentIssuesCount : ℕ
  previousRepairFailed : Bool
deriving DecidableEq, Repr

/-- Full input of `calculate_priority`: severity/trade from the triage
output, the text layer's concept Booleans, the context bundle, and the
description length (used only by the confidence step). -/
structure PriorityInput where
  severity : String
  trade : String
  concepts : Concepts
  tenant : Tenant
  temperature : ℚ
  property : PropertyInfo
  timing : Timing
  history : History
  descLen : ℕ
deriving DecidableEq, Repr

/-- `PriorityResult` dataclass (the trace string is omitted: it is a
human-readable log of the same multiplications). -/
structure PriorityResult where
  priority_score : ℚ
  severity : String
  base_hazard : ℚ
  combined_hazard : ℚ
  applied_factors : List PriorityFactor
  applied_interactions : List InteractionEffect
  confidence : ℚ
deriving DecidableEq, Repr

/-- Python `str.upper()` (ASCII, per-character). -/
def strUpper (s : String) : String := ⟨s.data.map Char.toUpper⟩

/-- Python `str.lower()` (ASCII, per-character). -/
def strLower (s : String) : String := ⟨s.data.map Char.toLower⟩

/-- `BASE_HAZARDS.get(severity, 0.429)`. -/
def baseHazard (sev : String) : ℚ :=
  if sev = "LOW" then 0.111
  else if sev = "MEDIUM" then 0.429
  else if sev = "HIGH" then 1.500
  else if sev = "EMERGENCY" then 5.667
  else 0.429

/-- Substring test (Python `in` on strings). -/
def strContains (s pat : String) : Bool :=
  s.toList.tails.any (fun t => pat.toList.isPrefixOf t)

/-- One conditional multiplication step: multiply `h` and append the
factor when the condition holds. -/
def step (cond : Bool) (f : PriorityFactor) :
    ℚ × List PriorityFactor → ℚ × List PriorityFactor :=
  fun s => if cond then (s.1 * f.hr, s.2 ++ [f]) else s

/-! The factor catalogue, with the exact names, hazard ratios and
category tags of the source. -/

def gasFactor : PriorityFactor := ⟨"Gas leak/smell", 4.0, "LIFE_SAFETY"⟩
def fireFactor : PriorityFactor := ⟨"Fire/flames/smoke", 4.0, "LIFE_SAFETY"⟩
def coFactor : PriorityFactor := ⟨"Carbon monoxide alarm", 4.0, "LIFE_SAFETY"⟩
def shockFactor : PriorityFactor := ⟨"Electrical shock hazard", 3.0, "LIFE_SAFETY"⟩
def sewageFactor : PriorityFactor := ⟨"Sewage in living area", 2.5, "LIFE_SAFETY"⟩
def waterSpreadFactor : PriorityFactor := ⟨"Water actively spreading", 2.2, "ACTIVE_DAMAGE"⟩
def ceilingDripFactor : PriorityFactor := ⟨"Ceiling dripping", 1.8, "ACTIVE_DAMAGE"⟩
def worseFactor : PriorityFactor := ⟨"Situation escalating", 1.6, "ACTIVE_DAMAGE"⟩
def evacuatedFactor : PriorityFactor := ⟨"Tenant evacuated", 2.0, "ACTIVE_DAMAGE"⟩
def medicalFactor : PriorityFactor := ⟨"Medical condition", 1.8, "VULNERABILITY"⟩
def infantFactor : PriorityFactor := ⟨"Infant present", 1.6, "VULNERABILITY"⟩
def elderlyFactor : PriorityFactor := ⟨"Elderly tenant", 1.5, "VULNERABILITY"⟩
def pregnantFactor : PriorityFactor := ⟨"Pregnant occupant", 1.4, "VULNERABILITY"⟩
def extremeColdFactor : PriorityFactor := ⟨"No heat + extreme cold", 2.2, "ENVIRONMENTAL"⟩
def coldFactor : PriorityFactor := ⟨"No heat + cold", 1.6, "ENVIRONMENTAL"⟩
def extremeHeatFactor : PriorityFactor := ⟨"No AC + extreme heat", 1.8, "ENVIRONMENTAL"⟩
def freezeFactor : PriorityFactor := ⟨"Freeze risk", 1.7, "ENVIRONMENTAL"⟩
def lateNightFactor : PriorityFactor := ⟨"Late night", 1.35, "TIMING"⟩
def holidayFactor : PriorityFactor := ⟨"Holiday", 1.30, "TIMING"⟩
def afterHoursFactor : PriorityFactor := ⟨"After hours", 1.25, "TIMING"⟩
def weekendFactor : PriorityFactor := ⟨"Weekend", 1.15, "TIMING"⟩
def thirdTimeFactor : PriorityFactor := ⟨"Third+ occurrence", 2.0, "RECURRENCE"⟩
def repairFailedFactor : PriorityFactor := ⟨"Previous repair failed", 1.7, "RECURRENCE"⟩
def recentIssueFactor : PriorityFactor := ⟨"Recent similar issue", 1.5, "RECURRENCE"⟩
def structuralFactor : PriorityFactor := ⟨"Structural concern", 1.6, "PROPERTY_RISK"⟩
def upperFloorFactor : PriorityFactor := ⟨"Upper floor water leak", 1.5, "PROPERTY_RISK"⟩
def multiUnitFactor : PriorityFactor := ⟨"Multi-unit building", 1.4, "PROPERTY_RISK"⟩
def lockedOutFactor : PriorityFactor := ⟨"Cannot access unit", 2.0, "ESSENTIAL_SERVICE"⟩
def noPowerFactor : PriorityFactor := ⟨"No electricity", 1.9, "ESSENTIAL_SERVICE"⟩
def noWaterFactor : PriorityFactor := ⟨"No running water", 1.8, "ESSENTIAL_SERVICE"⟩
def noToiletFactor : PriorityFactor := ⟨"No toilet function", 1.7, "ESSENTIAL_SERVICE"⟩

/-- `_apply_life_safety_factors`. -/
def applyLifeSafety (h : ℚ) (c : Concepts) : ℚ × List PriorityFactor :=
  (step c.sewage sewageFactor
    (step c.electricalShock shockFactor
      (step c.carbonMonoxide coFactor
        (step c.fireSmoke fireFactor
          (step c.gasLeak gasFactor (h, []))))))

/-- `_apply_active_damage_factors`. -/
def applyActiveDamage (h : ℚ) (c : Concepts) : ℚ × List PriorityFactor :=
  (step c.evacuated evacuatedFactor
    (step c.gettingWorse worseFactor
      (step c.ceilingDrip ceilingDripFactor
        (step c.waterSpreading waterSpreadFactor (h, [])))))

/-- `_apply_vulnerability_factors`. -/
def applyVulnerability (h : ℚ) (t : Tenant) : ℚ × List PriorityFactor :=
  (step t.isPregnant pregnantFactor
    (step (t.isElderly || decide (75 ≤ t.age)) elderlyFactor
      (step t.hasInfant infantFactor
        (step t.hasMedicalCondition medicalFactor (h, [])))))

/-- `_apply_environmental_factors`: the two cold branches are an
`if/elif`, the heat and freeze branches are independent `if`s.
`isHeatingIssue`/`isCoolingIssue`/`isWaterIssue` are inlined. -/
def applyEnvironmental (h : ℚ) (temp : ℚ) (trade : String) (c : Concepts) :
    ℚ × List PriorityFactor :=
  (step (decide (temp < 32) && decide (trade = "PLUMBING")) freezeFactor
    (step (decide (95 < temp) && (decide (trade = "HVAC") || c.noAc)) extremeHeatFactor
      (if decide (temp < 40) && (decide (trade = "HVAC") || c.noHeat) then
        (h * 2.2, [extremeColdFactor])
      else if decide (temp < 50) && (decide (trade = "HVAC") || c.noHeat) then
        (h * 1.6, [coldFactor])
      else (h, []))))

/-- `_apply_timing_factors`: a single `if/elif` chain, first true flag
wins. -/
def applyTiming (h : ℚ) (t : Timing) : ℚ × List PriorityFactor :=
  if t.isLateNight then (h * 1.35, [lateNightFactor])
  else if t.isHoliday then (h * 1.30, [holidayFactor])
  else if t.isAfterHours then (h * 1.25, [afterHoursFactor])
  else if t.isWeekend then (h * 1.15, [weekendFactor])
  else (h, [])

/-- `_apply_recurrence_factors`: a single `if/elif` chain. -/
def applyRecurrence (h : ℚ) (hist : History) (c : Concepts) :
    ℚ × List PriorityFactor :=
  if decide (3 ≤ hist.recentIssuesCount) || c.thirdTime then
    (h * 2.0, [thirdTimeFactor])
  else if hist.previousRepairFailed || c.repairFailed then
    (h * 1.7, [repairFailedFactor])
  else if 1 ≤ hist.recentIssuesCount then
    (h * 1.5, [recentIssueFactor])
  else (h, [])

/-- `_apply_property_factors`. -/
def applyProperty (h : ℚ) (p : PropertyInfo) (trade : String) (c : Concepts) :
    ℚ × List PriorityFactor :=
  (step (decide (1 < p.totalUnits)) multiUnitFactor
    (step (decide (1 < p.floor) && decide (trade = "PLUMBING")) upperFloorFactor
      (step c.structural structuralFactor (h, []))))

/-- `_apply_essential_service_factors`. -/
def applyEssentialService (h : ℚ) (c : Concepts) : ℚ × List PriorityFactor :=
  (step c.noToilet noToiletFactor
    (step c.noWater noWaterFactor
      (step c.noPower noPowerFactor
        (step c.lockedOut lockedOutFactor (h, [])))))

/-- One conditional interaction step. -/
def istep (cond : Bool) (e : InteractionEffect) :
    ℚ × List InteractionEffect → ℚ × List InteractionEffect :=
  fun s => if cond then (s.1 * e.ir, s.2 ++ [e]) else s

def vulnEnvIE : InteractionEffect := ⟨"Vulnerability × Environmental", 1.5⟩
def waterElecIE : InteractionEffect := ⟨"Water × Electrical", 1.6⟩
def recurSevIE : InteractionEffect := ⟨"Recurrence × High Severity", 1.4⟩
def multiSpreadIE : InteractionEffect := ⟨"Multi-unit × Spreading", 1.5⟩
def lateEmerIE : InteractionEffect := ⟨"Late Night × Emergency", 1.25⟩
def multiVulnIE : InteractionEffect := ⟨"Multiple Vulnerabilities", 1.3⟩

/-- `_apply_interactions`. -/
def applyInteractions (h : ℚ) (sev : String) (fs : List PriorityFactor)
    (trade : String) (p : PropertyInfo) (t : Timing) :
    ℚ × List InteractionEffect :=
  (istep (decide (2 ≤ fs.countP (fun f => f.category == "VULNERABILITY"))) multiVulnIE
    (istep (t.isLateNight && decide (sev = "EMERGENCY")) lateEmerIE
      (istep (decide (1 < p.totalUnits) && fs.any (fun f =>
          strContains (strLower f.name) "spreading" ||
            strContains (strLower f.name) "worse")) multiSpreadIE
        (istep (fs.any (fun f => f.category == "RECURRENCE") &&
            (decide (sev = "HIGH") || decide (sev = "EMERGENCY"))) recurSevIE
          (istep (fs.any (fun f => strContains (strLower f.name) "water") &&
              (decide (trade = "ELECTRICAL") ||
                fs.any (fun f => strContains (strLower f.name) "electrical"))) waterElecIE
            (istep (fs.any (fun f => f.category == "VULNERABILITY") &&
                fs.any (fun f => f.category == "ENVIRONMENTAL")) vulnEnvIE
              (h, [])))))))

/-- `_calculate_confidence`. -/
def calcConfidence (fs : List PriorityFactor) (sev : String) (descLen : ℕ) : ℚ :=
  let c0 : ℚ := 0.85
  let c1 := if 3 ≤ fs.length then c0 + 0.05
    else if fs.length = 0 then c0 - 0.10 else c0
  let c2 := if sev = "EMERGENCY" ∨ sev = "LOW" then c1 + 0.05 else c1
  let c3 := if 100 < descLen then c2 + 0.05
    else if descLen < 20 then c2 - 0.10 else c2
  max 0.5 (min 1.0 c3)

/-- `calculate_priority`: base hazard, the eight main-effect passes in
source order, the interaction pass, then the self-bounding score. -/
def calculatePriority (inp : PriorityInput) : PriorityResult :=
  let sev := strUpper inp.severity
  let trade := strUpper inp.trade
  let base := baseHazard sev
  let s1 := applyLifeSafety base inp.concepts
  let s2 := applyActiveDamage s1.1 inp.concepts
  let s3 := applyVulnerability s2.1 inp.tenant
  let s4 := applyEnvironmental s3.1 inp.temperature trade inp.concepts
  let s5 := applyTiming s4.1 inp.timing
  let s6 := applyRecurrence s5.1 inp.history inp.concepts
  let s7 := applyProperty s6.1 inp.property trade inp.concepts
  let s8 := applyEssentialService s7.1 inp.concepts
  let factors := s1.2 ++ s2.2 ++ s3.2 ++ s4.2 ++ s5.2 ++ s6.2 ++ s7.2 ++ s8.2
  let s9 := applyInteractions s8.1 sev factors trade inp.property inp.timing
  let h := s9.1
  { priority_score := (100 * h) / (h + 1)
    severity := sev
    base_hazard := base
    combined_hazard := h
    applied_factors := factors
    applied_interactions := s9.2
    confidence := calcConfidence factors sev inp.descLen }

/-- The Boolean trigger conditions a single request can additionally
satisfy (one more matched keyword concept, vulnerability flag, timing
flag, or failed-repair flag). -/
inductive Trigger
  | gasLeak | fireSmoke | carbonMonoxide | electricalShock | sewage
  | waterSpreading | ceilingDrip | gettingWorse | evacuated
  | noHeat | noAc | noWater | noPower | noToilet | lockedOut
  | structural | thirdTime | repairFailed
  | hasMedicalCondition | hasInfant | isElderly | isPregnant
  | isLateNight | isHoliday | isAfterHours | isWeekend
  | previousRepairFailed
deriving DecidableEq, Repr

/-- Set one Boolean trigger condition to true, leaving everything else
unchanged. -/
def setTrigger (inp : PriorityInput) : Trigger → PriorityInput
  | .gasLeak => { inp with concepts.gasLeak := true }
  | .fireSmoke => { inp with concepts.fireSmoke := true }
  | .carbonMonoxide => { inp with concepts.carbonMonoxide := true }
  | .electricalShock => { inp with concepts.electricalShock := true }
  | .sewage => { inp with concepts.sewage := true }
  | .waterSpreading => { inp with concepts.waterSpreading := true }
  | .ceilingDrip => { inp with concepts.ceilingDrip := true }
  | .gettingWorse => { inp with concepts.gettingWorse := true }
  | .evacuated => { inp with concepts.evacuated := true }
  | .noHeat => { inp with concepts.noHeat := true }
  | .noAc => { inp with concepts.noAc := true }
  | .noWater => { inp with concepts.noWater := true }
  | .noPower => { inp with concepts.noPower := true }
  | .noToilet => { inp with concepts.noToilet := true }
  | .lockedOut => { inp with concepts.lockedOut := true }
  | .structural => { inp with concepts.structural := true }
  | .thirdTime => { inp with concepts.thirdTime := true }
  | .repairFailed => { inp with concepts.repairFailed := true }
  | .hasMedicalCondition => { inp with tenant.hasMedicalCondition := true }
  | .hasInfant => { inp with tenant.hasInfant := true }
  | .isElderly => { inp with tenant.isElderly := true }
  | .isPregnant => { inp with tenant.isPregnant := true }
  | .isLateNight => { inp with timing.isLateNight := true }
  | .isHoliday => { inp with timing.isHoliday := true }
  | .isAfterHours => { inp with timing.isAfterHours := true }
  | .isWeekend => { inp with timing.isWeekend := true }
  | .previousRepairFailed => { inp with history.previousRepairFailed := true }

/-- Pointwise order on the triggering conditions of the priority
factors: severity and trade are equal, every Boolean trigger flag of the
first input also holds in the second, and every numeric triggering
condition the first input satisfies (recent-issue counts of 1 and 3,
more than one unit, an above-first floor, the four temperature
thresholds, age at least 75) is also satisfied by the second.  An input
that additionally satisfies the triggering condition of exactly one more
factor than an otherwise identical input is a special case. -/
def InputLe (x y : PriorityInput) : Prop :=
  x.severity = y.severity ∧ x.trade = y.trade ∧
  (x.concepts.gasLeak → y.concepts.gasLeak) ∧
  (x.concepts.fireSmoke → y.concepts.fireSmoke) ∧
  (x.concepts.carbonMonoxide → y.concepts.carbonMonoxide) ∧
  (x.concepts.electricalShock → y.concepts.electricalShock) ∧
  (x.concepts.sewage → y.concepts.sewage) ∧
  (x.concepts.waterSpreading → y.concepts.waterSpreading) ∧
  (x.concepts.ceilingDrip → y.concepts.ceilingDrip) ∧
  (x.concepts.gettingWorse → y.concepts.gettingWorse) ∧
  (x.concepts.evacuated → y.concepts.evacuated) ∧
  (x.concepts.noHeat → y.concepts.noHeat) ∧
  (x.concepts.noAc → y.concepts.noAc) ∧
  (x.concepts.noWater → y.concepts.noWater) ∧
  (x.concepts.noPower → y.concepts.noPower) ∧
  (x.concepts.noToilet → y.concepts.noToilet) ∧
  (x.concepts.lockedOut → y.concepts.lockedOut) ∧
  (x.concepts.structural → y.concepts.structural) ∧
  (x.concepts.thirdTime → y.concepts.thirdTime) ∧
  (x.concepts.repairFailed → y.concepts.repairFailed) ∧
  (x.tenant.hasMedicalCondition → y.tenant.hasMedicalCondition) ∧
  (x.tenant.hasInfant → y.tenant.hasInfant) ∧
  (x.tenant.isElderly → y.tenant.isElderly) ∧
  (x.tenant.isPregnant → y.tenant.isPregnant) ∧
  (75 ≤ x.tenant.age → 75 ≤ y.tenant.age) ∧
  (x.temperature < 40 → y.temperature < 40) ∧
  (x.temperature < 50 → y.temperature < 50) ∧
  (95 < x.temperature → 95 < y.temperature) ∧
  (x.temperature < 32 → y.temperature < 32) ∧
  (1 < x.property.floor → 1 < y.property.floor) ∧
  (1 < x.property.totalUnits → 1 < y.property.totalUnits) ∧
  (x.timing.isLateNight → y.timing.isLateNight) ∧
  (x.timing.isHoliday → y.timing.isHoliday) ∧
  (x.timing.isAfterHours → y.timing.isAfterHours) ∧
  (x.timing.isWeekend → y.timing.isWeekend) ∧
  (1 ≤ x.history.recentIssuesCount → 1 ≤ y.history.recentIssuesCount) ∧
  (3 ≤ x.history.recentIssuesCount → 3 ≤ y.history.recentIssuesCount) ∧
  (x.history.previousRepairFailed → y.history.previousRepairFailed)

/-- The result the source produces for a MEDIUM request (score 45)
submitted on a Friday at 16:30 (day 4 ≡ Friday) under the default
configuration: the unconditional snap discards the remaining Friday
window, so the 48 response hours start the following Monday and end at
closing time (17:00) of the sixth business day (day 14 ≡ Monday), and
the 120 resolution hours end at closing of the fifteenth business day
(day 25 ≡ Friday). -/
def scenario4Result : SLAResult :=
  ⟨"MEDIUM", ⟨14, 17, 0, 0⟩, ⟨25, 17, 0, 0⟩, 48, 120, true, "All qualified"⟩

/-- Every factor the engine can ever emit. -/
def factorCatalogue : List PriorityFactor :=
  [gasFactor, fireFactor, coFactor, shockFactor, sewageFactor,
    waterSpreadFactor, ceilingDripFactor, worseFactor, evacuatedFactor,
    medicalFactor, infantFactor, elderlyFactor, pregnantFactor,
    extremeColdFactor, coldFactor, extremeHeatFactor, freezeFactor,
    lateNightFactor, holidayFactor, afterHoursFactor, weekendFactor,
    thirdTimeFactor, repairFailedFactor, recentIssueFactor,
    structuralFactor, upperFloorFactor, multiUnitFactor,
    lockedOutFactor, noPowerFactor, noWaterFactor, noToiletFactor]

/-- Every interaction effect the engine can ever emit. -/
def interactionCatalogue : List InteractionEffect :=
  [vulnEnvIE, waterElecIE, recurSevIE, multiSpreadIE, lateEmerIE, multiVulnIE]

/-- A MEDIUM plumbing request reporting "no heat" at 20°F with no other
context: the text condition makes it a heating issue while the trade
makes it a freeze risk, so the cold chain and the freeze check both
fire. -/
def coldPlumbingInput : PriorityInput :=
  { severity := "MEDIUM", trade := "PLUMBING"
    concepts := ⟨false, false, false, false, false, false, false, false, false,
      true, false, false, false, false, false, false, false, false⟩
    tenant := ⟨false, false, false, false, 0⟩
    temperature := 20
    property := ⟨0, 1⟩
    timing := ⟨false, false, false, false⟩
    history := ⟨0, false⟩
    descLen := 50 }

/-- The same request with one more satisfied numeric triggering
condition: a recent similar issue is now on record, so the
`1 ≤ recent_issues_count` threshold of the recent-issue recurrence
factor is newly true and nothing else changed. -/
def coldPlumbingRecur : PriorityInput :=
  { coldPlumbingInput with history := ⟨1, false⟩ }

/-! ## Calendar lemmas -/

theorem DT.toSecs_ofSecs (s : ℕ) : (DT.ofSecs s).toSecs = s := by
  simp only [DT.ofSecs, DT.toSecs]
  omega

theorem DT.day_mul_le_toSecs (t : DT) : t.day * 86400 ≤ t.toSecs := by
  simp only [DT.toSecs]
  omega

theorem DT.day_le_addHoursQ (t : DT) (q : ℚ) (hq : 0 ≤ q) :
    t.day ≤ (t.addHoursQ q).day := by
  have h1 : (0 : ℤ) ≤ ⌊q * 3600⌋ := by positivity
  have h2 : t.day * 86400 ≤ t.toSecs := t.day_mul_le_toSecs
  simp only [DT.addHoursQ, DT.ofSecs]
  omega

theorem DT.addHoursQ_nat (p : DT) (hm : p.minute = 0) (hs : p.second = 0)
    (r : ℕ) (hhr : p.hour + r ≤ 23) :
    p.addHoursQ (r : ℚ) = ⟨p.day, p.hour + r, 0, 0⟩ := by
  have h1 : (r : ℚ) * 3600 = ((r * 3600 : ℕ) : ℚ) := by push_cast; ring
  have h2 : ⌊((r * 3600 : ℕ) : ℚ)⌋ = (r * 3600 : ℕ) := Int.floor_natCast _
  simp only [DT.addHoursQ, DT.ofSecs, DT.toSecs, h1, h2, hm, hs]
  have h3 : ((p.day * 24 + p.hour) * 60 + 0) * 60 + 0 + (r * 3600 : ℕ) =
      p.day * 86400 + (p.hour + r) * 3600 := by ring
  simp only [DT.mk.injEq]
  omega

theorem skipNonBusiness_spec (days : List ℕ) :
    ∀ f p q, skipNonBusiness days f p = some q →
      q.hour = p.hour ∧ q.minute = p.minute ∧ q.second = p.second ∧
        p.day ≤ q.day ∧ q.day % 7 ∈ days := by
  intro f
  induction f with
  | zero => intro p q h; simp [skipNonBusiness] at h
  | succ f ih =>
    intro p q h
    rw [skipNonBusiness] at h
    split at h
    · rename_i hmem
      cases h
      exact ⟨rfl, rfl, rfl, le_refl _, hmem⟩
    · obtain ⟨h1, h2, h3, h4, h5⟩ := ih _ _ h
      exact ⟨h1, h2, h3, by simp at h4; omega, h5⟩

theorem skipNonBusiness_isSome (days : List ℕ) :
    ∀ f p, (∃ j < f, (p.day + j) % 7 ∈ days) →
      (skipNonBusiness days f p).isSome := by
  intro f
  induction f with
  | zero => rintro p ⟨j, hj, _⟩; omega
  | succ f ih =>
    rintro p ⟨j, hj, hmem⟩
    rw [skipNonBusiness]
    split
    · rfl
    · rename_i hnot
      apply ih
      rcases Nat.eq_zero_or_pos j with rfl | hpos
      · simp only [Nat.add_zero] at hmem
        exact absurd hmem hnot
      · refine ⟨j - 1, by omega, ?_⟩
        have : p.day + 1 + (j - 1) = p.day + j := by omega
        simpa [this] using hmem

theorem exists_business_offset {days : List ℕ} (hne : days ≠ [])
    (hlt : ∀ d ∈ days, d < 7) (n : ℕ) : ∃ j < 7, (n + j) % 7 ∈ days := by
  obtain ⟨d, hd⟩ := List.exists_mem_of_ne_nil days hne
  have hd7 : d < 7 := hlt d hd
  refine ⟨(d + 7 - n % 7) % 7, by omega, ?_⟩
  have heq : (n + (d + 7 - n % 7) % 7) % 7 = d := by omega
  rw [heq]; exact hd

/-- `_move_to_next_business_period` always succeeds on a valid weekday
set, lands at the opening of a business day no earlier than its input,
and moves strictly forward unless the input was before opening on a
business weekday. -/
theorem moveNext_spec (a : SLAMapperAgent) (hne : a.business_days ≠ [])
    (hlt : ∀ d ∈ a.business_days, d < 7) (t : DT) :
    ∃ q, a.moveToNextBusinessPeriod t = some q ∧ BizStart a q ∧ t.day ≤ q.day ∧
      (¬(t.hour < a.business_hours_start ∧ t.day % 7 ∈ a.business_days) →
        t.day < q.day) := by
  rw [SLAMapperAgent.moveToNextBusinessPeriod]
  split
  · rename_i hc
    exact ⟨_, rfl, ⟨rfl, rfl, rfl, hc.2⟩, le_refl _, fun h => absurd hc h⟩
  · rename_i hc
    have hs := skipNonBusiness_isSome a.business_days 7
      ⟨t.day + 1, a.business_hours_start, 0, 0⟩
      (exists_business_offset hne hlt _)
    obtain ⟨q, hq⟩ := Option.isSome_iff_exists.mp hs
    obtain ⟨h1, h2, h3, h4, h5⟩ := skipNonBusiness_spec _ _ _ _ hq
    simp only at h1 h2 h3 h4
    exact ⟨q, hq, ⟨h1, h2, h3, h5⟩, by omega, fun _ => by omega⟩

/-- Any output of `_move_to_next_business_period` is no earlier (in days)
than its input; no configuration validity needed. -/
theorem moveNext_day_lb (a : SLAMapperAgent) (t q : DT)
    (h : a.moveToNextBusinessPeriod t = some q) : t.day ≤ q.day := by
  rw [SLAMapperAgent.moveToNextBusinessPeriod] at h
  split at h
  · cases h; exact le_refl _
  · have := (skipNonBusiness_spec _ _ _ _ h).2.2.2.1
    simp only at this
    omega

theorem isBusinessTime_bizStart (a : SLAMapperAgent)
    (hlt : a.business_hours_start < a.business_hours_end)
    (p : DT) (hp : BizStart a p) : a.isBusinessTime p = true := by
  obtain ⟨h1, _, _, h4⟩ := hp
  simp only [SLAMapperAgent.isBusinessTime, h1, Bool.and_eq_true, decide_eq_true_eq]
  exact ⟨⟨h4, le_refl _⟩, hlt⟩

/-- At the opening of a business day the hours available until closing
are exactly the window length. -/
theorem avail_at_bizStart (a : SLAMapperAgent)
    (hlt : a.business_hours_start < a.business_hours_end)
    (p : DT) (hp : BizStart a p) :
    ((DT.toSecs ⟨p.day, a.business_hours_end, 0, 0⟩ : ℚ) - (p.toSecs : ℚ)) / 3600 =
      ((a.business_hours_end - a.business_hours_start : ℕ) : ℚ) := by
  obtain ⟨h1, h2, h3, _⟩ := hp
  have he : (DT.toSecs ⟨p.day, a.business_hours_end, 0, 0⟩ : ℕ) =
      p.day * 86400 + a.business_hours_end * 3600 := by
    simp only [DT.toSecs]; ring
  have hc : p.toSecs = p.day * 86400 + a.business_hours_start * 3600 := by
    simp only [DT.toSecs, h1, h2, h3]; ring
  rw [he, hc]
  push_cast [Nat.cast_sub (le_of_lt hlt)]
  field_simp
  ring

/-- Unfolding equation of the fuelled hour-consuming loop. -/
theorem walk_succ (a : SLAMapperAgent) (f : ℕ) (cur : DT) (rem : ℚ) :
    a.walk (f + 1) cur rem =
      if rem ≤ 0 then some cur
      else if a.isBusinessTime cur then
        if rem ≤ ((DT.toSecs ⟨cur.day, a.business_hours_end, 0, 0⟩ : ℚ) -
            (cur.toSecs : ℚ)) / 3600 then
          some (cur.addHoursQ rem)
        else
          match a.moveToNextBusinessPeriod ⟨cur.day, a.business_hours_end, 0, 0⟩ with
          | some c => a.walk f c
              (rem - ((DT.toSecs ⟨cur.day, a.business_hours_end, 0, 0⟩ : ℚ) -
                (cur.toSecs : ℚ)) / 3600)
          | none => none
      else
        match a.moveToNextBusinessPeriod cur with
        | some c => a.walk f c rem
        | none => none := rfl

/-- Any deadline the walker returns is no earlier (in days) than the
point it started from. -/
theorem walk_day_lb (a : SLAMapperAgent) :
    ∀ f cur rem d, a.walk f cur rem = some d → cur.day ≤ d.day := by
  intro f
  induction f with
  | zero => intro cur rem d h; simp [SLAMapperAgent.walk] at h
  | succ f ih =>
    intro cur rem d h
    rw [walk_succ] at h
    split at h
    · cases h; exact le_refl _
    · rename_i hrem
      split at h
      · split at h
        · cases h
          exact cur.day_le_addHoursQ rem (by linarith [not_le.mp hrem])
        · split at h
          · rename_i c hc
            have h7 := moveNext_day_lb a _ c hc
            exact le_trans h7 (ih _ _ _ h)
          · cases h
      · split at h
        · rename_i c hc
          have h7 := moveNext_day_lb a _ c hc
          exact le_trans h7 (ih _ _ _ h)
        · cases h

/-- Core walker characterisation: starting at the opening of a business
day with a positive integral number of hours to consume and enough fuel,
the walker succeeds and the deadline lies in `(start, end]` at minute 0
on a business weekday, no earlier than the starting day. -/
theorem walk_spec (a : SLAMapperAgent) (hv : ValidCfg a) :
    ∀ fuel r p, BizStart a p → 0 < r → r ≤ fuel →
      ∃ d, a.walk fuel p (r : ℚ) = some d ∧
        a.business_hours_start < d.hour ∧ d.hour ≤ a.business_hours_end ∧
        d.minute = 0 ∧ d.second = 0 ∧ d.day % 7 ∈ a.business_days ∧
        p.day ≤ d.day := by
  obtain ⟨hlt, hend, hne, hwk⟩ := hv
  intro fuel
  induction fuel with
  | zero => intro r p _ hr hrf; omega
  | succ f ih =>
    intro r p hp hr hrf
    rw [walk_succ]
    rw [if_neg (by rw [not_le]; exact_mod_cast hr)]
    rw [if_pos (isBusinessTime_bizStart a hlt p hp)]
    rw [avail_at_bizStart a hlt p hp]
    by_cases hsmall : r ≤ a.business_hours_end - a.business_hours_start
    · rw [if_pos (by exact_mod_cast hsmall)]
      rw [DT.addHoursQ_nat p hp.2.1 hp.2.2.1 r (by have := hp.1; omega)]
      refine ⟨_, rfl, ?_, ?_, rfl, rfl, ?_, le_refl _⟩
      · simp only [hp.1]; omega
      · simp only [hp.1]; omega
      · exact hp.2.2.2
    · rw [if_neg (by exact_mod_cast hsmall)]
      obtain ⟨q, hq, hqb, hqd, _⟩ := moveNext_spec a hne hwk
        ⟨p.day, a.business_hours_end, 0, 0⟩
      rw [hq]
      have hLr : a.business_hours_end - a.business_hours_start ≤ r :=
        le_of_lt (not_le.mp hsmall)
      have hcast : (r : ℚ) - ((a.business_hours_end - a.business_hours_start : ℕ) : ℚ) =
          ((r - (a.business_hours_end - a.business_hours_start) : ℕ) : ℚ) := by
        rw [Nat.cast_sub hLr]
      rw [hcast]
      obtain ⟨d, hd, h1, h2, h3, h4, h5, h6⟩ :=
        ih (r - (a.business_hours_end - a.business_hours_start)) q hqb
          (by omega) (by omega)
      refine ⟨d, hd, h1, h2, h3, h4, h5, ?_⟩
      have hqd2 : p.day ≤ q.day := hqd
      omega

/-- The walker is monotone in the number of hours to consume: starting
from the same business-day opening, asking for more hours never yields an
earlier deadline (for any fuels that let both runs finish). -/
theorem walk_mono (a : SLAMapperAgent) (hv : ValidCfg a) :
    ∀ (f2 f1 r1 r2 : ℕ) (p d1 d2 : DT), BizStart a p → 0 < r1 → r1 ≤ r2 →
      a.walk f1 p (r1 : ℚ) = some d1 → a.walk f2 p (r2 : ℚ) = some d2 →
      d1.toSecs ≤ d2.toSecs := by
  obtain ⟨hlt, hend, hne, hwk⟩ := hv
  intro f2
  induction f2 with
  | zero =>
    intro f1 r1 r2 p d1 d2 _ _ _ _ h2
    simp [SLAMapperAgent.walk] at h2
  | succ f2 ih =>
    intro f1 r1 r2 p d1 d2 hp hr1 hr12 h1 h2
    cases f1 with
    | zero => simp [SLAMapperAgent.walk] at h1
    | succ f1 =>
      rw [walk_succ] at h1 h2
      rw [if_neg (by rw [not_le]; exact_mod_cast hr1)] at h1
      rw [if_neg (by rw [not_le]; exact_mod_cast (show 0 < r2 by omega))] at h2
      rw [if_pos (isBusinessTime_bizStart a hlt p hp)] at h1 h2
      rw [avail_at_bizStart a hlt p hp] at h1 h2
      by_cases hs1 : r1 ≤ a.business_hours_end - a.business_hours_start
      · rw [if_pos (by exact_mod_cast hs1)] at h1
        rw [DT.addHoursQ_nat p hp.2.1 hp.2.2.1 r1 (by have := hp.1; omega)] at h1
        cases h1
        by_cases hs2 : r2 ≤ a.business_hours_end - a.business_hours_start
        · rw [if_pos (by exact_mod_cast hs2)] at h2
          rw [DT.addHoursQ_nat p hp.2.1 hp.2.2.1 r2 (by have := hp.1; omega)] at h2
          cases h2
          simp only [DT.toSecs]
          omega
        · rw [if_neg (by exact_mod_cast hs2)] at h2
          obtain ⟨q, hq, hqb, hqd, hqd'⟩ := moveNext_spec a hne hwk
            ⟨p.day, a.business_hours_end, 0, 0⟩
          rw [hq] at h2
          have hdlb := walk_day_lb a _ _ _ _ h2
          have hstrict : p.day < q.day := by
            refine hqd' ?_
            rintro ⟨hbad, -⟩
            have hbad2 : a.business_hours_end < a.business_hours_start := hbad
            omega
          have hqd2 : q.day ≤ d2.day := hdlb
          have e1 : DT.toSecs ⟨p.day, p.hour + r1, 0, 0⟩ =
              p.day * 86400 + (p.hour + r1) * 3600 := by
            simp only [DT.toSecs]; ring
          have e2 := d2.day_mul_le_toSecs
          have e3 : p.hour = a.business_hours_start := hp.1
          omega
      · rw [if_neg (by exact_mod_cast hs1)] at h1
        have hs2 : ¬ (r2 ≤ a.business_hours_end - a.business_hours_start) := by
          omega
        rw [if_neg (by exact_mod_cast hs2)] at h2
        obtain ⟨q, hq, hqb, -, -⟩ := moveNext_spec a hne hwk
          ⟨p.day, a.business_hours_end, 0, 0⟩
        rw [hq] at h1 h2
        have hL1 : a.business_hours_end - a.business_hours_start ≤ r1 :=
          le_of_lt (not_le.mp hs1)
        have hL2 : a.business_hours_end - a.business_hours_start ≤ r2 := by omega
        rw [show (r1 : ℚ) - ((a.business_hours_end - a.business_hours_start : ℕ) : ℚ) =
            ((r1 - (a.business_hours_end - a.business_hours_start) : ℕ) : ℚ) from
          (Nat.cast_sub hL1).symm] at h1
        rw [show (r2 : ℚ) - ((a.business_hours_end - a.business_hours_start : ℕ) : ℚ) =
            ((r2 - (a.business_hours_end - a.business_hours_start) : ℕ) : ℚ) from
          (Nat.cast_sub hL2).symm] at h2
        exact ih f1 (r1 - (a.business_hours_end - a.business_hours_start))
          (r2 - (a.business_hours_end - a.business_hours_start)) q d1 d2 hqb
          (by omega) (by omega) h1 h2

/-- `_calculate_business_hours_deadline` on a valid configuration:
succeeds for any positive workload, and the deadline sits in
`(start, end]` at minute 0 on a business weekday. -/
theorem calcBH_spec (a : SLAMapperAgent) (hv : ValidCfg a) (t : DT)
    (hours : ℕ) (hh : 0 < hours) :
    ∃ d, a.calcBusinessHoursDeadline t hours = some d ∧
      a.business_hours_start < d.hour ∧ d.hour ≤ a.business_hours_end ∧
      d.minute = 0 ∧ d.second = 0 ∧ d.day % 7 ∈ a.business_days := by
  obtain ⟨q, hq, hqb, -, -⟩ := moveNext_spec a hv.2.2.1 hv.2.2.2 t
  unfold SLAMapperAgent.calcBusinessHoursDeadline
  rw [hq]
  obtain ⟨d, hd, h1, h2, h3, h4, h5, -⟩ :=
    walk_spec a hv (hours + 1) hours q hqb hh (by omega)
  exact ⟨d, hd, h1, h2, h3, h4, h5⟩

/-- `_calculate_business_hours_deadline` is monotone in the workload. -/
theorem calcBH_mono (a : SLAMapperAgent) (hv : ValidCfg a) (t : DT)
    (h1 h2 : ℕ) (hpos : 0 < h1) (hle : h1 ≤ h2) (d1 d2 : DT)
    (e1 : a.calcBusinessHoursDeadline t h1 = some d1)
    (e2 : a.calcBusinessHoursDeadline t h2 = some d2) :
    d1.toSecs ≤ d2.toSecs := by
  unfold SLAMapperAgent.calcBusinessHoursDeadline at e1 e2
  obtain ⟨q, hq, hqb, -, -⟩ := moveNext_spec a hv.2.2.1 hv.2.2.2 t
  rw [hq] at e1 e2
  exact walk_mono a hv (h2 + 1) (h1 + 1) h1 h2 q d1 d2 hqb hpos hle e1 e2

theorem DT.addHoursQ_mono (t : DT) {q1 q2 : ℚ} (h : q1 ≤ q2) :
    (t.addHoursQ q1).toSecs ≤ (t.addHoursQ q2).toSecs := by
  simp only [DT.addHoursQ, DT.toSecs_ofSecs]
  have hf : ⌊q1 * 3600⌋ ≤ ⌊q2 * 3600⌋ :=
    Int.floor_le_floor (by nlinarith)
  omega

/-- The fields of a successful `calculate_sla` result agree with the
tier table row selected by the score. -/
theorem calculateSla_fields (a : SLAMapperAgent) (score : ℚ) (t : DT)
    (res : SLAResult) (h : a.calculateSla score t = some res) :
    res.tier = (slaParams score).1 ∧
      res.response_hours = (slaParams score).2.1 ∧
      res.resolution_hours = (slaParams score).2.2.1 ∧
      res.business_hours_only = (slaParams score).2.2.2.1 ∧
      res.vendor_tier = (slaParams score).2.2.2.2 := by
  simp only [SLAMapperAgent.calculateSla] at h
  split at h
  · split at h
    · cases h; exact ⟨rfl, rfl, rfl, by simp_all, rfl⟩
    · cases h
  · cases h; exact ⟨rfl, rfl, rfl, by simp_all, rfl⟩

/-- In the business-hours branch, `calculate_sla` extracts its deadlines
from the deadline walker applied to the tier's hour budgets. -/
theorem calculateSla_deadlines_bh (a : SLAMapperAgent) (score : ℚ) (t : DT)
    (res : SLAResult) (hbh : (slaParams score).2.2.2.1 = true)
    (h : a.calculateSla score t = some res) :
    a.calcBusinessHoursDeadline t (slaParams score).2.1 =
        some res.response_deadline ∧
      a.calcBusinessHoursDeadline t (slaParams score).2.2.1 =
        some res.resolution_deadline := by
  simp only [SLAMapperAgent.calculateSla] at h
  split at h
  · split at h
    · rename_i r s hr hs
      cases h
      exact ⟨hr, hs⟩
    · cases h
  · simp_all

theorem slaParams_resp_pos (score : ℚ) : 0 < (slaParams score).2.1 := by
  unfold slaParams; split_ifs <;> norm_num

theorem slaParams_reso_pos (score : ℚ) : 0 < (slaParams score).2.2.1 := by
  unfold slaParams; split_ifs <;> norm_num

theorem slaParams_resp_le_reso (score : ℚ) :
    (slaParams score).2.1 ≤ (slaParams score).2.2.1 := by
  unfold slaParams; split_ifs <;> norm_num

theorem slaParams_bh_of_lt_80 (score : ℚ) (h : score < 80) :
    (slaParams score).2.2.2.1 = true := by
  unfold slaParams
  rw [if_neg (not_le.mpr h)]
  split_ifs <;> rfl

/-- C2: the tier table of `calculate_sla`: score ≥ 80 gives EMERGENCY
(4/24, 24/7, "Premium only") with deadlines computed by plain hour
arithmetic from the submission time; 80 > score ≥ 60 gives HIGH (24/48,
business hours, "Preferred + Premium"); 60 > score ≥ 25 gives MEDIUM
(48/120, business hours, "All qualified"); score < 25 gives LOW (72/168,
business hours, "Any available"). -/
theorem C2_tier_table (a : SLAMapperAgent) (score : ℚ) (t : DT) :
    (80 ≤ score →
      slaParams score = ("EMERGENCY", 4, 24, false, "Premium only") ∧
        a.calculateSla score t = some ⟨"EMERGENCY", t.addHoursQ 4,
          t.addHoursQ 24, 4, 24, false, "Premium only"⟩) ∧
    (60 ≤ score → score < 80 →
      slaParams score = ("HIGH", 24, 48, true, "Preferred + Premium")) ∧
    (25 ≤ score → score < 60 →
      slaParams score = ("MEDIUM", 48, 120, true, "All qualified")) ∧
    (score < 25 →
      slaParams score = ("LOW", 72, 168, true, "Any available")) ∧
    (∀ res, a.calculateSla score t = some res →
      res.tier = (slaParams score).1 ∧
        res.response_hours = (slaParams score).2.1 ∧
        res.resolution_hours = (slaParams score).2.2.1 ∧
        res.business_hours_only = (slaParams score).2.2.2.1 ∧
        res.vendor_tier = (slaParams score).2.2.2.2) := by
  refine ⟨fun h80 => ⟨by rw [slaParams, if_pos h80], ?_⟩,
    fun h60 h80 => by rw [slaParams, if_neg (not_le.mpr h80), if_pos h60],
    fun h25 h60 => by
      rw [slaParams, if_neg (by rw [not_le]; linarith),
        if_neg (not_le.mpr h60), if_pos h25],
    fun h25 => by
      rw [slaParams, if_neg (by rw [not_le]; linarith),
        if_neg (by rw [not_le]; linarith), if_neg (not_le.mpr h25)],
    fun res h => calculateSla_fields a score t res h⟩
  simp only [SLAMapperAgent.calculateSla, slaParams, if_pos h80]
  norm_num

/-- C3: for every valid configuration, every score and every submission
time, a successful `calculate_sla` result has its response deadline no
later than its resolution deadline. -/
theorem C3_response_le_resolution (a : SLAMapperAgent) (hv : ValidCfg a)
    (score : ℚ) (t : DT) (res : SLAResult)
    (h : a.calculateSla score t = some res) :
    res.response_deadline ≤ res.resolution_deadline := by
  show res.response_deadline.toSecs ≤ res.resolution_deadline.toSecs
  by_cases hbh : (slaParams score).2.2.2.1 = true
  · obtain ⟨hr, hs⟩ := calculateSla_deadlines_bh a score t res hbh h
    exact calcBH_mono a hv t (slaParams score).2.1 (slaParams score).2.2.1
      (slaParams_resp_pos score) (slaParams_resp_le_reso score) _ _ hr hs
  · simp only [SLAMapperAgent.calculateSla] at h
    rw [if_neg hbh] at h
    cases h
    exact DT.addHoursQ_mono t
      (by exact_mod_cast slaParams_resp_le_reso score)

/-- Single-step equation of the walker at the opening of a business day,
phrased over naturals only (so that concrete runs can be computed without
touching rational arithmetic). -/
theorem walk_step (a : SLAMapperAgent) (hv : ValidCfg a) (f r : ℕ) (p : DT)
    (hf : 0 < f) (hp : BizStart a p) (hr : 0 < r) :
    a.walk f p (r : ℚ) =
      if r ≤ a.business_hours_end - a.business_hours_start then
        some ⟨p.day, a.business_hours_start + r, 0, 0⟩
      else
        (a.moveToNextBusinessPeriod ⟨p.day, a.business_hours_end, 0, 0⟩).bind
          (fun c => a.walk (f - 1) c
            ((r - (a.business_hours_end - a.business_hours_start) : ℕ) : ℚ)) := by
  obtain ⟨f, rfl⟩ : ∃ g, f = g + 1 := ⟨f - 1, by omega⟩
  obtain ⟨hlt, hend, hne, hwk⟩ := hv
  rw [walk_succ, if_neg (by rw [not_le]; exact_mod_cast hr),
    if_pos (isBusinessTime_bizStart a hlt p hp),
    avail_at_bizStart a hlt p ⟨hp.1, hp.2.1, hp.2.2.1, hp.2.2.2⟩]
  by_cases hsmall : r ≤ a.business_hours_end - a.business_hours_start
  · rw [if_pos (by exact_mod_cast hsmall), if_pos hsmall,
      DT.addHoursQ_nat p hp.2.1 hp.2.2.1 r (by have := hp.1; omega), hp.1]
  · rw [if_neg (by exact_mod_cast hsmall), if_neg hsmall]
    have hLr : a.business_hours_end - a.business_hours_start ≤ r :=
      le_of_lt (not_le.mp hsmall)
    rw [show (r : ℚ) - ((a.business_hours_end - a.business_hours_start : ℕ) : ℚ) =
        ((r - (a.business_hours_end - a.business_hours_start) : ℕ) : ℚ) from
      (Nat.cast_sub hLr).symm]
    cases hm : a.moveToNextBusinessPeriod ⟨p.day, a.business_hours_end, 0, 0⟩ with
    | none => rfl
    | some c => rfl

/-- `walk_step` specialised to the default configuration. -/
theorem walk_step_default (f r day : ℕ) (hf : 0 < f)
    (hday : day % 7 ∈ [0, 1, 2, 3, 4]) (hr : 0 < r) :
    defaultAgent.walk f ⟨day, 9, 0, 0⟩ (r : ℚ) =
      if r ≤ 8 then some ⟨day, 9 + r, 0, 0⟩
      else
        (defaultAgent.moveToNextBusinessPeriod ⟨day, 17, 0, 0⟩).bind
          (fun c => defaultAgent.walk (f - 1) c ((r - 8 : ℕ) : ℚ)) :=
  walk_step defaultAgent (by decide) f r ⟨day, 9, 0, 0⟩ hf ⟨rfl, rfl, rfl, hday⟩ hr

/-- The walker runs of Scenario 4 (score 45, submission Friday 16:30,
default configuration), computed step by step. -/
theorem scenario4_eval :
    defaultAgent.calculateSla 45 ⟨4, 16, 30, 0⟩ = some scenario4Result := by
  have hresp : defaultAgent.calcBusinessHoursDeadline ⟨4, 16, 30, 0⟩ 48 =
      some ⟨14, 17, 0, 0⟩ := by
    show defaultAgent.walk 49 ⟨7, 9, 0, 0⟩ ((48 : ℕ) : ℚ) = some ⟨14, 17, 0, 0⟩
    rw [walk_step_default 49 48 7 (by norm_num) (by decide) (by norm_num),
      if_neg (by norm_num)]
    show defaultAgent.walk 48 ⟨8, 9, 0, 0⟩ ((40 : ℕ) : ℚ) = some ⟨14, 17, 0, 0⟩
    rw [walk_step_default 48 40 8 (by norm_num) (by decide) (by norm_num),
      if_neg (by norm_num)]
    show defaultAgent.walk 47 ⟨9, 9, 0, 0⟩ ((32 : ℕ) : ℚ) = some ⟨14, 17, 0, 0⟩
    rw [walk_step_default 47 32 9 (by norm_num) (by decide) (by norm_num),
      if_neg (by norm_num)]
    show defaultAgent.walk 46 ⟨10, 9, 0, 0⟩ ((24 : ℕ) : ℚ) = some ⟨14, 17, 0, 0⟩
    rw [walk_step_default 46 24 10 (by norm_num) (by decide) (by norm_num),
      if_neg (by norm_num)]
    show defaultAgent.walk 45 ⟨11, 9, 0, 0⟩ ((16 : ℕ) : ℚ) = some ⟨14, 17, 0, 0⟩
    rw [walk_step_default 45 16 11 (by norm_num) (by decide) (by norm_num),
      if_neg (by norm_num)]
    show defaultAgent.walk 44 ⟨14, 9, 0, 0⟩ ((8 : ℕ) : ℚ) = some ⟨14, 17, 0, 0⟩
    rw [walk_step_default 44 8 14 (by norm_num) (by decide) (by norm_num),
      if_pos (by norm_num)]
  have hreso : defaultAgent.calcBusinessHoursDeadline ⟨4, 16, 30, 0⟩ 120 =
      some ⟨25, 17, 0, 0⟩ := by
    show defaultAgent.walk 121 ⟨7, 9, 0, 0⟩ ((120 : ℕ) : ℚ) = some ⟨25, 17, 0, 0⟩
    rw [walk_step_default 121 120 7 (by norm_num) (by decide) (by norm_num),
      if_neg (by norm_num)]
    show defaultAgent.walk 120 ⟨8, 9, 0, 0⟩ ((112 : ℕ) : ℚ) = some ⟨25, 17, 0, 0⟩
    rw [walk_step_default 120 112 8 (by norm_num) (by decide) (by norm_num),
      if_neg (by norm_num)]
    show defaultAgent.walk 119 ⟨9, 9, 0, 0⟩ ((104 : ℕ) : ℚ) = some ⟨25, 17, 0, 0⟩
    rw [walk_step_default 119 104 9 (by norm_num) (by decide) (by norm_num),
      if_neg (by norm_num)]
    show defaultAgent.walk 118 ⟨10, 9, 0, 0⟩ ((96 : ℕ) : ℚ) = some ⟨25, 17, 0, 0⟩
    rw [walk_step_default 118 96 10 (by norm_num) (by decide) (by norm_num),
      if_neg (by norm_num)]
    show defaultAgent.walk 117 ⟨11, 9, 0, 0⟩ ((88 : ℕ) : ℚ) = some ⟨25, 17, 0, 0⟩
    rw [walk_step_default 117 88 11 (by norm_num) (by decide) (by norm_num),
      if_neg (by norm_num)]
    show defaultAgent.walk 116 ⟨14, 9, 0, 0⟩ ((80 : ℕ) : ℚ) = some ⟨25, 17, 0, 0⟩
    rw [walk_step_default 116 80 14 (by norm_num) (by decide) (by norm_num),
      if_neg (by norm_num)]
    show defaultAgent.walk 115 ⟨15, 9, 0, 0⟩ ((72 : ℕ) : ℚ) = some ⟨25, 17, 0, 0⟩
    rw [walk_step_default 115 72 15 (by norm_num) (by decide) (by norm_num),
      if_neg (by norm_num)]
    show defaultAgent.walk 114 ⟨16, 9, 0, 0⟩ ((64 : ℕ) : ℚ) = some ⟨25, 17, 0, 0⟩
    rw [walk_step_default 114 64 16 (by norm_num) (by decide) (by norm_num),
      if_neg (by norm_num)]
    show defaultAgent.walk 113 ⟨17, 9, 0, 0⟩ ((56 : ℕ) : ℚ) = some ⟨25, 17, 0, 0⟩
    rw [walk_step_default 113 56 17 (by norm_num) (by decide) (by norm_num),
      if_neg (by norm_num)]
    show defaultAgent.walk 112 ⟨18, 9, 0, 0⟩ ((48 : ℕ) : ℚ) = some ⟨25, 17, 0, 0⟩
    rw [walk_step_default 112 48 18 (by norm_num) (by decide) (by norm_num),
      if_neg (by norm_num)]
    show defaultAgent.walk 111 ⟨21, 9, 0, 0⟩ ((40 : ℕ) : ℚ) = some ⟨25, 17, 0, 0⟩
    rw [walk_step_default 111 40 21 (by norm_num) (by decide) (by norm_num),
      if_neg (by norm_num)]
    show defaultAgent.walk 110 ⟨22, 9, 0, 0⟩ ((32 : ℕ) : ℚ) = some ⟨25, 17, 0, 0⟩
    rw [walk_step_default 110 32 22 (by norm_num) (by decide) (by norm_num),
      if_neg (by norm_num)]
    show defaultAgent.walk 109 ⟨23, 9, 0, 0⟩ ((24 : ℕ) : ℚ) = some ⟨25, 17, 0, 0⟩
    rw [walk_step_default 109 24 23 (by norm_num) (by decide) (by norm_num),
      if_neg (by norm_num)]
    show defaultAgent.walk 108 ⟨24, 9, 0, 0⟩ ((16 : ℕ) : ℚ) = some ⟨25, 17, 0, 0⟩
    rw [walk_step_default 108 16 24 (by norm_num) (by decide) (by norm_num),
      if_neg (by norm_num)]
    show defaultAgent.walk 107 ⟨25, 9, 0, 0⟩ ((8 : ℕ) : ℚ) = some ⟨25, 17, 0, 0⟩
    rw [walk_step_default 107 8 25 (by norm_num) (by decide) (by norm_num),
      if_pos (by norm_num)]
  show (match defaultAgent.calcBusinessHoursDeadline ⟨4, 16, 30, 0⟩ 48,
      defaultAgent.calcBusinessHoursDeadline ⟨4, 16, 30, 0⟩ 120 with
    | some r, some s =>
      some (⟨"MEDIUM", r, s, 48, 120, true, "All qualified"⟩ : SLAResult)
    | _, _ => none) = some scenario4Result
  rw [hresp, hreso]
  exact rfl

/-- C3 witness: the Friday-16:30 MEDIUM scenario under the default
configuration. -/
theorem C3_witness :
    scenario4Result.response_deadline ≤ scenario4Result.resolution_deadline :=
  C3_response_le_resolution defaultAgent (by decide) 45 ⟨4, 16, 30, 0⟩
    scenario4Result scenario4_eval

theorem DT.addHoursQ_natCast (t : DT) (r : ℕ) :
    t.addHoursQ (r : ℚ) = DT.ofSecs (t.toSecs + r * 3600) := by
  unfold DT.addHoursQ
  rw [show (r : ℚ) * 3600 = ((r * 3600 : ℕ) : ℚ) by push_cast; ring,
    Int.floor_natCast]
  congr 1

/-- C2 witness: a score of 98.3 submitted Tuesday 23:30 (day 1) maps to
the EMERGENCY row with plain-arithmetic deadlines 4 and 24 hours later. -/
theorem C2_witness :
    defaultAgent.calculateSla 98.3 ⟨1, 23, 30, 0⟩ =
      some ⟨"EMERGENCY", ⟨2, 3, 30, 0⟩, ⟨2, 23, 30, 0⟩, 4, 24, false,
        "Premium only"⟩ := by
  have h := (C2_tier_table defaultAgent 98.3 ⟨1, 23, 30, 0⟩).1 (by norm_num)
  rw [h.2, show (4 : ℚ) = ((4 : ℕ) : ℚ) by norm_num,
    show (24 : ℚ) = ((24 : ℕ) : ℚ) by norm_num,
    DT.addHoursQ_natCast, DT.addHoursQ_natCast]
  decide

/-- C9: on a valid configuration the business-hours walker terminates for
every submission time and every positive workload, and `calculate_sla`
always returns a result. -/
theorem C9_walker_terminates (a : SLAMapperAgent) (hv : ValidCfg a) :
    (∀ (t : DT) (hours : ℕ), 0 < hours →
      (a.calcBusinessHoursDeadline t hours).isSome = true) ∧
    (∀ (score : ℚ) (t : DT), (a.calculateSla score t).isSome = true) := by
  have hbh : ∀ (t : DT) (hours : ℕ), 0 < hours →
      (a.calcBusinessHoursDeadline t hours).isSome = true := by
    intro t hours hh
    obtain ⟨d, hd, -⟩ := calcBH_spec a hv t hours hh
    rw [hd]; rfl
  refine ⟨hbh, fun score t => ?_⟩
  simp only [SLAMapperAgent.calculateSla]
  split
  · obtain ⟨r, hr⟩ := Option.isSome_iff_exists.mp
      (hbh t (slaParams score).2.1 (slaParams_resp_pos score))
    obtain ⟨s, hs⟩ := Option.isSome_iff_exists.mp
      (hbh t (slaParams score).2.2.1 (slaParams_reso_pos score))
    rw [hr, hs]
    rfl
  · rfl

/-- C9 witness: the default configuration and the Friday-16:30 MEDIUM
scenario. -/
theorem C9_witness :
    (defaultAgent.calcBusinessHoursDeadline ⟨4, 16, 30, 0⟩ 48).isSome = true ∧
      (defaultAgent.calculateSla 45 ⟨4, 16, 30, 0⟩).isSome = true :=
  ⟨(C9_walker_terminates defaultAgent (by decide)).1 ⟨4, 16, 30, 0⟩ 48
      (by norm_num),
    (C9_walker_terminates defaultAgent (by decide)).2 45 ⟨4, 16, 30, 0⟩⟩

theorem moveNext_congr (a : SLAMapperAgent) (t1 t2 : DT)
    (hday : t1.day = t2.day)
    (hcond : (t1.hour < a.business_hours_start ∧
        t1.day % 7 ∈ a.business_days) ↔
      (t2.hour < a.business_hours_start ∧ t2.day % 7 ∈ a.business_days)) :
    a.moveToNextBusinessPeriod t1 = a.moveToNextBusinessPeriod t2 := by
  unfold SLAMapperAgent.moveToNextBusinessPeriod
  by_cases hc : t1.hour < a.business_hours_start ∧ t1.day % 7 ∈ a.business_days
  · rw [if_pos hc, if_pos (hcond.mp hc), hday]
  · rw [if_neg hc, if_neg (fun h => hc (hcond.mpr h)), hday]

theorem calcBH_congr (a : SLAMapperAgent) (t1 t2 : DT) (hours : ℕ)
    (hday : t1.day = t2.day)
    (hcond : (t1.hour < a.business_hours_start ∧
        t1.day % 7 ∈ a.business_days) ↔
      (t2.hour < a.business_hours_start ∧ t2.day % 7 ∈ a.business_days)) :
    a.calcBusinessHoursDeadline t1 hours = a.calcBusinessHoursDeadline t2 hours := by
  unfold SLAMapperAgent.calcBusinessHoursDeadline
  rw [moveNext_congr a t1 t2 hday hcond]

/-- C10: for business-hours tiers (score < 80) the deadlines depend only
on the submission's calendar date and on whether its hour is before
opening on a business weekday; in particular two same-date submissions at
or after opening give identical results, and the minute and second
components never matter. -/
theorem C10_deadline_coarseness (a : SLAMapperAgent) (score : ℚ) :
    (∀ t1 t2 : DT, score < 80 → t1.day = t2.day →
      ((t1.hour < a.business_hours_start ∧ t1.day % 7 ∈ a.business_days) ↔
        (t2.hour < a.business_hours_start ∧ t2.day % 7 ∈ a.business_days)) →
      a.calculateSla score t1 = a.calculateSla score t2) ∧
    (∀ t1 t2 : DT, score < 80 → t1.day = t2.day →
      a.business_hours_start ≤ t1.hour → a.business_hours_start ≤ t2.hour →
      a.calculateSla score t1 = a.calculateSla score t2) ∧
    (∀ (t : DT) (m s : ℕ), score < 80 →
      a.calculateSla score ⟨t.day, t.hour, m, s⟩ = a.calculateSla score t) := by
  have main : ∀ t1 t2 : DT, score < 80 → t1.day = t2.day →
      ((t1.hour < a.business_hours_start ∧ t1.day % 7 ∈ a.business_days) ↔
        (t2.hour < a.business_hours_start ∧ t2.day % 7 ∈ a.business_days)) →
      a.calculateSla score t1 = a.calculateSla score t2 := by
    intro t1 t2 h80 hday hcond
    simp only [SLAMapperAgent.calculateSla]
    rw [calcBH_congr a t1 t2 (slaParams score).2.1 hday hcond,
      calcBH_congr a t1 t2 (slaParams score).2.2.1 hday hcond,
      if_pos (slaParams_bh_of_lt_80 score h80), if_pos (slaParams_bh_of_lt_80 score h80)]
  refine ⟨main, fun t1 t2 h80 hday h1 h2 => main t1 t2 h80 hday ?_,
    fun t m s h80 => main _ t h80 rfl Iff.rfl⟩
  constructor
  · rintro ⟨hbad, -⟩; omega
  · rintro ⟨hbad, -⟩; omega

/-- C10 witness: under the default configuration, MEDIUM deadlines for a
Friday 16:30 submission equal those for Friday 16:00. -/
theorem C10_witness :
    defaultAgent.calculateSla 45 ⟨4, 16, 30, 0⟩ =
      defaultAgent.calculateSla 45 ⟨4, 16, 0, 0⟩ :=
  (C10_deadline_coarseness defaultAgent 45).2.2 ⟨4, 16, 0, 0⟩ 30 0 (by norm_num)

/-- C4 counterexample: the snap is not conditional on being outside the
business window (Monday 10:30 is business time yet is moved to Tuesday
9:00), and the Scenario-4 response deadline lands on a Monday (day
14 ≡ 0) at closing time 17:00, not on a Thursday within business hours. -/
theorem C4_counterexample :
    defaultAgent.isBusinessTime ⟨0, 10, 30, 0⟩ = true ∧
      defaultAgent.moveToNextBusinessPeriod ⟨0, 10, 30, 0⟩ = some ⟨1, 9, 0, 0⟩ ∧
      defaultAgent.calculateSla 45 ⟨4, 16, 30, 0⟩ = some scenario4Result ∧
      scenario4Result.response_deadline.day % 7 = 0 ∧
      scenario4Result.response_deadline.hour = 17 ∧
      ¬(scenario4Result.response_deadline.day % 7 = 3 ∧
          9 ≤ scenario4Result.response_deadline.hour ∧
          scenario4Result.response_deadline.hour < 17) :=
  ⟨by decide, by decide, scenario4_eval, by decide, by decide, by decide⟩

/-- C4 amended: the walker snaps forward unconditionally: any submission
inside the business window on a business weekday is advanced to the
opening of a strictly later day, consuming no hours on the submission
day. -/
theorem C4_amended_always_advances (a : SLAMapperAgent) (t q : DT)
    (hin : a.isBusinessTime t = true)
    (hq : a.moveToNextBusinessPeriod t = some q) : t.day < q.day := by
  simp only [SLAMapperAgent.isBusinessTime, Bool.and_eq_true,
    decide_eq_true_eq] at hin
  obtain ⟨⟨hmem, hle⟩, hlt⟩ := hin
  rw [SLAMapperAgent.moveToNextBusinessPeriod,
    if_neg (by rintro ⟨hbad, -⟩; omega)] at hq
  have h2 : t.day + 1 ≤ q.day := (skipNonBusiness_spec _ _ _ _ hq).2.2.2.1
  omega

/-- C4 amended witness: Monday 10:30 is advanced to Tuesday. -/
theorem C4_amended_witness : (⟨0, 10, 30, 0⟩ : DT).day < (⟨1, 9, 0, 0⟩ : DT).day :=
  C4_amended_always_advances defaultAgent ⟨0, 10, 30, 0⟩ ⟨1, 9, 0, 0⟩
    (by decide) (by decide)

/-- C5 counterexample: for the valid default configuration and the
business-hours score 45, the response deadline falls exactly at
`business_hours_end` (17:00), outside the half-open window `[9, 17)`. -/
theorem C5_counterexample :
    ValidCfg defaultAgent ∧ (45 : ℚ) < 80 ∧
      defaultAgent.calculateSla 45 ⟨4, 16, 30, 0⟩ = some scenario4Result ∧
      defaultAgent.business_hours_end = 17 ∧
      scenario4Result.response_deadline.hour = 17 ∧
      ¬(scenario4Result.response_deadline.hour < defaultAgent.business_hours_end) :=
  ⟨by decide, by norm_num, scenario4_eval, by decide, by decide, by decide⟩

/-- C5 amended: for every valid configuration and business-hours tier
(score < 80), both deadlines fall within the half-open interval
`(business_hours_start, business_hours_end]` on a configured business
weekday. -/
theorem C5_amended_window (a : SLAMapperAgent) (hv : ValidCfg a) (score : ℚ)
    (t : DT) (res : SLAResult) (hsc : score < 80)
    (h : a.calculateSla score t = some res) :
    (a.business_hours_start < res.response_deadline.hour ∧
      res.response_deadline.hour ≤ a.business_hours_end ∧
      res.response_deadline.day % 7 ∈ a.business_days) ∧
    (a.business_hours_start < res.resolution_deadline.hour ∧
      res.resolution_deadline.hour ≤ a.business_hours_end ∧
      res.resolution_deadline.day % 7 ∈ a.business_days) := by
  have hbh := slaParams_bh_of_lt_80 score hsc
  obtain ⟨hr, hs⟩ := calculateSla_deadlines_bh a score t res hbh h
  obtain ⟨d1, hd1, b1, b2, -, -, b5⟩ := calcBH_spec a hv t _ (slaParams_resp_pos score)
  rw [hd1] at hr
  obtain rfl := Option.some.inj hr
  obtain ⟨d2, hd2, c1, c2, -, -, c5⟩ := calcBH_spec a hv t _ (slaParams_reso_pos score)
  rw [hd2] at hs
  obtain rfl := Option.some.inj hs
  exact ⟨⟨b1, b2, b5⟩, ⟨c1, c2, c5⟩⟩

/-- C5 amended witness: the Scenario-4 deadlines sit in `(9, 17]` on
business weekdays. -/
theorem C5_amended_witness :
    (defaultAgent.business_hours_start < scenario4Result.response_deadline.hour ∧
      scenario4Result.response_deadline.hour ≤ defaultAgent.business_hours_end ∧
      scenario4Result.response_deadline.day % 7 ∈ defaultAgent.business_days) ∧
    (defaultAgent.business_hours_start < scenario4Result.resolution_deadline.hour ∧
      scenario4Result.resolution_deadline.hour ≤ defaultAgent.business_hours_end ∧
      scenario4Result.resolution_deadline.day % 7 ∈ defaultAgent.business_days) :=
  C5_amended_window defaultAgent (by decide) 45 ⟨4, 16, 30, 0⟩ scenario4Result
    (by norm_num) scenario4_eval

/-- C8 counterexample: an inverted-hours configuration and an empty
weekday list are both accepted by the constructor (no error of any kind);
the empty list is silently replaced by the Mon-Fri default, and the
inverted configuration then makes `calculate_sla` fail to terminate
(fuel model: `none`). -/
theorem C8_counterexample :
    SLAMapperAgent.make 17 9 (some [0, 1, 2, 3, 4]) = ⟨17, 9, [0, 1, 2, 3, 4]⟩ ∧
      SLAMapperAgent.make 9 17 (some []) = ⟨9, 17, [0, 1, 2, 3, 4]⟩ ∧
      (SLAMapperAgent.make 17 9 (some [0, 1, 2, 3, 4])).calculateSla 45
        ⟨0, 10, 0, 0⟩ = none :=
  ⟨rfl, rfl, by decide⟩

/-- C8 amended: construction performs no validation: hour bounds are
stored verbatim, an empty (falsy) weekday list is silently replaced by
the Mon-Fri default, and a configuration with start >= end is accepted,
after which the hour-consuming walker never terminates for any positive
workload (the fuel model returns `none` for every fuel). -/
theorem C8_amended_no_validation :
    (∀ (s e : ℕ) (l : List ℕ), l ≠ [] →
      SLAMapperAgent.make s e (some l) = ⟨s, e, l⟩) ∧
    (∀ s e : ℕ, SLAMapperAgent.make s e (some []) = ⟨s, e, [0, 1, 2, 3, 4]⟩ ∧
      SLAMapperAgent.make s e none = ⟨s, e, [0, 1, 2, 3, 4]⟩) ∧
    (∀ a : SLAMapperAgent, a.business_hours_end ≤ a.business_hours_start →
      ∀ (f : ℕ) (cur : DT) (rem : ℚ), 0 < rem → a.walk f cur rem = none) ∧
    (∀ a : SLAMapperAgent, a.business_hours_end ≤ a.business_hours_start →
      ∀ (t : DT) (hours : ℕ), 0 < hours →
        a.calcBusinessHoursDeadline t hours = none) := by
  have hwalk : ∀ a : SLAMapperAgent,
      a.business_hours_end ≤ a.business_hours_start →
      ∀ (f : ℕ) (cur : DT) (rem : ℚ), 0 < rem → a.walk f cur rem = none := by
    intro a hbad f
    induction f with
    | zero => intro cur rem _; rfl
    | succ f ih =>
      intro cur rem hrem
      have hbt : ¬ (a.isBusinessTime cur = true) := by
        simp only [SLAMapperAgent.isBusinessTime, Bool.and_eq_true,
          decide_eq_true_eq]
        rintro ⟨⟨-, h1⟩, h2⟩
        omega
      rw [walk_succ, if_neg (not_le.mpr hrem), if_neg hbt]
      cases hm : a.moveToNextBusinessPeriod cur with
      | none => rfl
      | some c => exact ih c rem hrem
  refine ⟨fun s e l hl => ?_, fun s e => ⟨rfl, rfl⟩, hwalk, ?_⟩
  · cases l with
    | nil => exact absurd rfl hl
    | cons x xs => rfl
  · intro a hbad t hours hh
    unfold SLAMapperAgent.calcBusinessHoursDeadline
    cases hm : a.moveToNextBusinessPeriod t with
    | none => rfl
    | some c => exact hwalk a hbad _ c _ (by exact_mod_cast hh)

/-- C8 amended witness: a concrete inverted configuration is accepted and
its walker returns no deadline. -/
theorem C8_amended_witness :
    SLAMapperAgent.make 17 9 (some [0]) = ⟨17, 9, [0]⟩ ∧
      (SLAMapperAgent.make 17 9 (some [0])).calcBusinessHoursDeadline
        ⟨0, 10, 0, 0⟩ 24 = none :=
  ⟨C8_amended_no_validation.1 17 9 [0] (by decide),
    C8_amended_no_validation.2.2.2 _ (by decide) ⟨0, 10, 0, 0⟩ 24 (by norm_num)⟩


/-! ## Priority engine lemmas -/

theorem step_fst (cond : Bool) (f : PriorityFactor) (s : ℚ × List PriorityFactor) :
    (step cond f s).1 = s.1 * (if cond then f.hr else 1) := by
  unfold step; split_ifs <;> simp

theorem step_snd_prod (cond : Bool) (f : PriorityFactor)
    (s : ℚ × List PriorityFactor) :
    (((step cond f s).2).map (fun g => g.hr)).prod =
      ((s.2.map (fun g => g.hr)).prod) * (if cond then f.hr else 1) := by
  unfold step; split_ifs <;> simp

theorem step_mem_iff (cond : Bool) (f : PriorityFactor)
    (s : ℚ × List PriorityFactor) (g : PriorityFactor) :
    g ∈ (step cond f s).2 ↔ g ∈ s.2 ∨ (cond = true ∧ g = f) := by
  unfold step; split_ifs <;> simp_all

theorem istep_fst (cond : Bool) (e : InteractionEffect)
    (s : ℚ × List InteractionEffect) :
    (istep cond e s).1 = s.1 * (if cond then e.ir else 1) := by
  unfold istep; split_ifs <;> simp

theorem istep_snd_prod (cond : Bool) (e : InteractionEffect)
    (s : ℚ × List InteractionEffect) :
    (((istep cond e s).2).map (fun g => g.ir)).prod =
      ((s.2.map (fun g => g.ir)).prod) * (if cond then e.ir else 1) := by
  unfold istep; split_ifs <;> simp

theorem istep_mem_iff (cond : Bool) (e : InteractionEffect)
    (s : ℚ × List InteractionEffect) (g : InteractionEffect) :
    g ∈ (istep cond e s).2 ↔ g ∈ s.2 ∨ (cond = true ∧ g = e) := by
  unfold istep; split_ifs <;> simp_all

theorem applyLifeSafety_fst (h : ℚ) (c : Concepts) :
    (applyLifeSafety h c).1 =
      h * (((applyLifeSafety h c).2).map (fun g => g.hr)).prod := by
  unfold applyLifeSafety
  simp only [step_fst, step_snd_prod]
  simp
  ring

theorem applyActiveDamage_fst (h : ℚ) (c : Concepts) :
    (applyActiveDamage h c).1 =
      h * (((applyActiveDamage h c).2).map (fun g => g.hr)).prod := by
  unfold applyActiveDamage
  simp only [step_fst, step_snd_prod]
  simp
  ring

theorem applyVulnerability_fst (h : ℚ) (t : Tenant) :
    (applyVulnerability h t).1 =
      h * (((applyVulnerability h t).2).map (fun g => g.hr)).prod := by
  unfold applyVulnerability
  simp only [step_fst, step_snd_prod]
  simp
  ring

theorem applyEnvironmental_fst (h : ℚ) (temp : ℚ) (trade : String) (c : Concepts) :
    (applyEnvironmental h temp trade c).1 =
      h * (((applyEnvironmental h temp trade c).2).map (fun g => g.hr)).prod := by
  unfold applyEnvironmental
  simp only [step_fst, step_snd_prod]
  split_ifs <;> simp [extremeColdFactor, coldFactor] <;> ring

theorem applyTiming_fst (h : ℚ) (t : Timing) :
    (applyTiming h t).1 =
      h * (((applyTiming h t).2).map (fun g => g.hr)).prod := by
  unfold applyTiming
  split_ifs <;>
    simp [lateNightFactor, holidayFactor, afterHoursFactor, weekendFactor]

theorem applyRecurrence_fst (h : ℚ) (hist : History) (c : Concepts) :
    (applyRecurrence h hist c).1 =
      h * (((applyRecurrence h hist c).2).map (fun g => g.hr)).prod := by
  unfold applyRecurrence
  split_ifs <;> simp [thirdTimeFactor, repairFailedFactor, recentIssueFactor]

theorem applyProperty_fst (h : ℚ) (p : PropertyInfo) (trade : String) (c : Concepts) :
    (applyProperty h p trade c).1 =
      h * (((applyProperty h p trade c).2).map (fun g => g.hr)).prod := by
  unfold applyProperty
  simp only [step_fst, step_snd_prod]
  simp
  ring

theorem applyEssentialService_fst (h : ℚ) (c : Concepts) :
    (applyEssentialService h c).1 =
      h * (((applyEssentialService h c).2).map (fun g => g.hr)).prod := by
  unfold applyEssentialService
  simp only [step_fst, step_snd_prod]
  simp
  ring

theorem applyInteractions_fst (h : ℚ) (sev : String) (fs : List PriorityFactor)
    (trade : String) (p : PropertyInfo) (t : Timing) :
    (applyInteractions h sev fs trade p t).1 =
      h * (((applyInteractions h sev fs trade p t).2).map (fun g => g.ir)).prod := by
  unfold applyInteractions
  simp only [istep_fst, istep_snd_prod]
  simp
  ring

theorem applyLifeSafety_sub (h : ℚ) (c : Concepts) :
    ∀ g ∈ (applyLifeSafety h c).2, g ∈ factorCatalogue := by
  intro g hg
  unfold applyLifeSafety at hg
  simp only [step_mem_iff, List.not_mem_nil, false_or] at hg
  rcases hg with ((((⟨-, rfl⟩ | ⟨-, rfl⟩) | ⟨-, rfl⟩) | ⟨-, rfl⟩) | ⟨-, rfl⟩) <;>
    simp [factorCatalogue]

theorem applyActiveDamage_sub (h : ℚ) (c : Concepts) :
    ∀ g ∈ (applyActiveDamage h c).2, g ∈ factorCatalogue := by
  intro g hg
  unfold applyActiveDamage at hg
  simp only [step_mem_iff, List.not_mem_nil, false_or] at hg
  rcases hg with (((⟨-, rfl⟩ | ⟨-, rfl⟩) | ⟨-, rfl⟩) | ⟨-, rfl⟩) <;>
    simp [factorCatalogue]

theorem applyVulnerability_sub (h : ℚ) (t : Tenant) :
    ∀ g ∈ (applyVulnerability h t).2, g ∈ factorCatalogue := by
  intro g hg
  unfold applyVulnerability at hg
  simp only [step_mem_iff, List.not_mem_nil, false_or] at hg
  rcases hg with (((⟨-, rfl⟩ | ⟨-, rfl⟩) | ⟨-, rfl⟩) | ⟨-, rfl⟩) <;>
    simp [factorCatalogue]

theorem applyEnvironmental_sub (h : ℚ) (temp : ℚ) (trade : String) (c : Concepts) :
    ∀ g ∈ (applyEnvironmental h temp trade c).2, g ∈ factorCatalogue := by
  intro g hg
  unfold applyEnvironmental at hg
  simp only [step_mem_iff] at hg
  rcases hg with ((hg | ⟨-, rfl⟩) | ⟨-, rfl⟩)
  · split_ifs at hg <;> simp_all [factorCatalogue]
  · simp [factorCatalogue]
  · simp [factorCatalogue]

theorem applyTiming_sub (h : ℚ) (t : Timing) :
    ∀ g ∈ (applyTiming h t).2, g ∈ factorCatalogue := by
  intro g hg
  unfold applyTiming at hg
  split_ifs at hg <;> simp_all [factorCatalogue]

theorem applyRecurrence_sub (h : ℚ) (hist : History) (c : Concepts) :
    ∀ g ∈ (applyRecurrence h hist c).2, g ∈ factorCatalogue := by
  intro g hg
  unfold applyRecurrence at hg
  split_ifs at hg <;> simp_all [factorCatalogue]

theorem applyProperty_sub (h : ℚ) (p : PropertyInfo) (trade : String) (c : Concepts) :
    ∀ g ∈ (applyProperty h p trade c).2, g ∈ factorCatalogue := by
  intro g hg
  unfold applyProperty at hg
  simp only [step_mem_iff, List.not_mem_nil, false_or] at hg
  rcases hg with ((⟨-, rfl⟩ | ⟨-, rfl⟩) | ⟨-, rfl⟩) <;> simp [factorCatalogue]

theorem applyEssentialService_sub (h : ℚ) (c : Concepts) :
    ∀ g ∈ (applyEssentialService h c).2, g ∈ factorCatalogue := by
  intro g hg
  unfold applyEssentialService at hg
  simp only [step_mem_iff, List.not_mem_nil, false_or] at hg
  rcases hg with (((⟨-, rfl⟩ | ⟨-, rfl⟩) | ⟨-, rfl⟩) | ⟨-, rfl⟩) <;>
    simp [factorCatalogue]

theorem catalogue_hr : ∀ g ∈ factorCatalogue, 1 ≤ g.hr := by
  intro g hg
  fin_cases hg <;>
    norm_num [gasFactor, fireFactor, coFactor, shockFactor, sewageFactor,
      waterSpreadFactor, ceilingDripFactor, worseFactor, evacuatedFactor,
      medicalFactor, infantFactor, elderlyFactor, pregnantFactor,
      extremeColdFactor, coldFactor, extremeHeatFactor, freezeFactor,
      lateNightFactor, holidayFactor, afterHoursFactor, weekendFactor,
      thirdTimeFactor, repairFailedFactor, recentIssueFactor,
      structuralFactor, upperFloorFactor, multiUnitFactor,
      lockedOutFactor, noPowerFactor, noWaterFactor, noToiletFactor]

theorem applyInteractions_sub (h : ℚ) (sev : String) (fs : List PriorityFactor)
    (trade : String) (p : PropertyInfo) (t : Timing) :
    ∀ g ∈ (applyInteractions h sev fs trade p t).2, g ∈ interactionCatalogue := by
  intro g hg
  unfold applyInteractions at hg
  simp only [istep_mem_iff, List.not_mem_nil, false_or] at hg
  rcases hg with
    (((((⟨-, rfl⟩ | ⟨-, rfl⟩) | ⟨-, rfl⟩) | ⟨-, rfl⟩) | ⟨-, rfl⟩) | ⟨-, rfl⟩) <;>
    simp [interactionCatalogue]

theorem catalogue_ir : ∀ g ∈ interactionCatalogue, 1 ≤ g.ir := by
  intro g hg
  fin_cases hg <;>
    norm_num [vulnEnvIE, waterElecIE, recurSevIE, multiSpreadIE, lateEmerIE,
      multiVulnIE]

/-- Every factor the engine applies comes from the catalogue. -/
theorem factors_sub (inp : PriorityInput) :
    ∀ g ∈ (calculatePriority inp).applied_factors, g ∈ factorCatalogue := by
  intro g hg
  simp only [calculatePriority, List.mem_append] at hg
  rcases hg with ((((((hg | hg) | hg) | hg) | hg) | hg) | hg) | hg
  · exact applyLifeSafety_sub _ _ g hg
  · exact applyActiveDamage_sub _ _ g hg
  · exact applyVulnerability_sub _ _ g hg
  · exact applyEnvironmental_sub _ _ _ _ g hg
  · exact applyTiming_sub _ _ g hg
  · exact applyRecurrence_sub _ _ _ g hg
  · exact applyProperty_sub _ _ _ _ g hg
  · exact applyEssentialService_sub _ _ g hg

theorem interactions_sub (inp : PriorityInput) :
    ∀ g ∈ (calculatePriority inp).applied_interactions, g ∈ interactionCatalogue := by
  intro g hg
  simp only [calculatePriority] at hg
  exact applyInteractions_sub _ _ _ _ _ _ g hg

theorem one_le_listProd {l : List ℚ} (h : ∀ x ∈ l, 1 ≤ x) : 1 ≤ l.prod := by
  induction l with
  | nil => simp
  | cons a t ih =>
    simp only [List.prod_cons]
    have ha : 1 ≤ a := h a (by simp)
    have ht : 1 ≤ t.prod := ih (fun x hx => h x (List.mem_cons_of_mem _ hx))
    nlinarith

theorem one_le_hrProd_of_sub {l : List PriorityFactor}
    (hsub : ∀ g ∈ l, g ∈ factorCatalogue) :
    1 ≤ (l.map (fun g => g.hr)).prod := by
  apply one_le_listProd
  intro x hx
  simp only [List.mem_map] at hx
  obtain ⟨g, hg, rfl⟩ := hx
  exact catalogue_hr g (hsub g hg)

theorem factors_hr_prod_one_le (inp : PriorityInput) :
    1 ≤ (((calculatePriority inp).applied_factors).map (fun g => g.hr)).prod :=
  one_le_hrProd_of_sub (factors_sub inp)

theorem interactions_ir_prod_one_le (inp : PriorityInput) :
    1 ≤ (((calculatePriority inp).applied_interactions).map (fun g => g.ir)).prod := by
  apply one_le_listProd
  intro x hx
  simp only [List.mem_map] at hx
  obtain ⟨g, hg, rfl⟩ := hx
  exact catalogue_ir g (interactions_sub inp g hg)

theorem baseHazard_pos (sev : String) : 0 < baseHazard sev := by
  unfold baseHazard
  split_ifs <;> norm_num

/-- The combined hazard is exactly the base hazard times the product of
all applied hazard ratios times the product of all applied interaction
ratios. -/
theorem combined_eq_prod (inp : PriorityInput) :
    (calculatePriority inp).combined_hazard =
      (calculatePriority inp).base_hazard *
        (((calculatePriority inp).applied_factors).map (fun g => g.hr)).prod *
        (((calculatePriority inp).applied_interactions).map (fun g => g.ir)).prod := by
  simp only [calculatePriority]
  rw [applyInteractions_fst, applyEssentialService_fst, applyProperty_fst,
    applyRecurrence_fst, applyTiming_fst, applyEnvironmental_fst,
    applyVulnerability_fst, applyActiveDamage_fst, applyLifeSafety_fst]
  simp only [List.map_append, List.prod_append]
  ring

theorem combined_pos (inp : PriorityInput) :
    0 < (calculatePriority inp).combined_hazard := by
  rw [combined_eq_prod]
  have h1 := factors_hr_prod_one_le inp
  have h2 := interactions_ir_prod_one_le inp
  have h3 : (calculatePriority inp).base_hazard =
      baseHazard (strUpper inp.severity) := rfl
  have h4 := baseHazard_pos (strUpper inp.severity)
  rw [h3]
  have hf : (0:ℚ) < (((calculatePriority inp).applied_factors).map
      (fun g => g.hr)).prod := lt_of_lt_of_le one_pos h1
  have hi : (0:ℚ) < (((calculatePriority inp).applied_interactions).map
      (fun g => g.ir)).prod := lt_of_lt_of_le one_pos h2
  exact mul_pos (mul_pos h4 hf) hi


theorem score_mono_aux {a b : ℚ} (ha : 0 < a) (hab : a ≤ b) :
    100 * a / (a + 1) ≤ 100 * b / (b + 1) := by
  rw [div_le_div_iff (by linarith) (by linarith)]
  nlinarith

/-- C1: for every input, the base hazard matches the fixed severity
table (unknown severities fall back to MEDIUM's 0.429); the combined
hazard equals the base hazard times the product of all applied hazard
ratios times the product of all applied interaction ratios, and is at
least the base hazard; the priority score equals `100·h/(h+1)` for
`h` the combined hazard, lies strictly inside `(0, 100)`, and is
non-decreasing in the combined hazard. -/
theorem C1_priority_result_invariants (inp : PriorityInput) :
    ((strUpper inp.severity = "LOW" →
        (calculatePriority inp).base_hazard = 0.111) ∧
      (strUpper inp.severity = "MEDIUM" →
        (calculatePriority inp).base_hazard = 0.429) ∧
      (strUpper inp.severity = "HIGH" →
        (calculatePriority inp).base_hazard = 1.500) ∧
      (strUpper inp.severity = "EMERGENCY" →
        (calculatePriority inp).base_hazard = 5.667) ∧
      (strUpper inp.severity ∉ (["LOW", "MEDIUM", "HIGH", "EMERGENCY"] : List String) →
        (calculatePriority inp).base_hazard = 0.429)) ∧
    (calculatePriority inp).combined_hazard =
      (calculatePriority inp).base_hazard *
        (((calculatePriority inp).applied_factors).map (fun g => g.hr)).prod *
        (((calculatePriority inp).applied_interactions).map (fun g => g.ir)).prod ∧
    (calculatePriority inp).base_hazard ≤ (calculatePriority inp).combined_hazard ∧
    (calculatePriority inp).priority_score =
      100 * (calculatePriority inp).combined_hazard /
        ((calculatePriority inp).combined_hazard + 1) ∧
    0 < (calculatePriority inp).priority_score ∧
    (calculatePriority inp).priority_score < 100 ∧
    ∀ inp2 : PriorityInput,
      (calculatePriority inp).combined_hazard ≤
        (calculatePriority inp2).combined_hazard →
      (calculatePriority inp).priority_score ≤
        (calculatePriority inp2).priority_score := by
  have hbase : (calculatePriority inp).base_hazard =
      baseHazard (strUpper inp.severity) := rfl
  have hscore : (calculatePriority inp).priority_score =
      100 * (calculatePriority inp).combined_hazard /
        ((calculatePriority inp).combined_hazard + 1) := rfl
  have hcpos := combined_pos inp
  refine ⟨⟨?_, ?_, ?_, ?_, ?_⟩, combined_eq_prod inp, ?_, hscore, ?_, ?_, ?_⟩
  · intro h; rw [hbase, h]; norm_num [baseHazard]
  · intro h; rw [hbase, h]; unfold baseHazard
    rw [if_neg (by decide), if_pos rfl]
  · intro h; rw [hbase, h]; unfold baseHazard
    rw [if_neg (by decide), if_neg (by decide), if_pos rfl]
  · intro h; rw [hbase, h]; unfold baseHazard
    rw [if_neg (by decide), if_neg (by decide), if_neg (by decide), if_pos rfl]
  · intro h
    simp only [List.mem_cons, List.mem_singleton, not_or] at h
    obtain ⟨h1, h2, h3, h4⟩ := h
    rw [hbase]
    unfold baseHazard
    rw [if_neg h1, if_neg h2, if_neg h3, if_neg (by simpa using h4)]
  · rw [combined_eq_prod, hbase]
    have h1 := factors_hr_prod_one_le inp
    have h2 := interactions_ir_prod_one_le inp
    have hb := baseHazard_pos (strUpper inp.severity)
    nlinarith [mul_le_mul_of_nonneg_left h1 hb.le,
      mul_le_mul_of_nonneg_left h2
        (mul_pos hb (lt_of_lt_of_le one_pos h1)).le]
  · rw [hscore]
    exact div_pos (by linarith) (by linarith)
  · rw [hscore, div_lt_iff (by linarith)]
    nlinarith
  · intro inp2 hle
    have := score_mono_aux hcpos hle
    rw [hscore]
    rw [show (calculatePriority inp2).priority_score =
      100 * (calculatePriority inp2).combined_hazard /
        ((calculatePriority inp2).combined_hazard + 1) from rfl]
    exact this

/-- C1 witness: concrete instantiation at a MEDIUM request. -/
theorem C1_witness :
    (calculatePriority coldPlumbingInput).base_hazard = 0.429 ∧
      (calculatePriority coldPlumbingInput).priority_score ≤
        (calculatePriority coldPlumbingInput).priority_score :=
  ⟨(C1_priority_result_invariants coldPlumbingInput).1.2.1 (by decide),
    (C1_priority_result_invariants coldPlumbingInput).2.2.2.2.2.2
      coldPlumbingInput (le_refl _)⟩

theorem applyLifeSafety_cat (h : ℚ) (c : Concepts) :
    ∀ g ∈ (applyLifeSafety h c).2, g.category = "LIFE_SAFETY" := by
  intro g hg
  unfold applyLifeSafety at hg
  simp only [step_mem_iff, List.not_mem_nil, false_or] at hg
  rcases hg with ((((⟨-, rfl⟩ | ⟨-, rfl⟩) | ⟨-, rfl⟩) | ⟨-, rfl⟩) | ⟨-, rfl⟩) <;> rfl

theorem applyActiveDamage_cat (h : ℚ) (c : Concepts) :
    ∀ g ∈ (applyActiveDamage h c).2, g.category = "ACTIVE_DAMAGE" := by
  intro g hg
  unfold applyActiveDamage at hg
  simp only [step_mem_iff, List.not_mem_nil, false_or] at hg
  rcases hg with (((⟨-, rfl⟩ | ⟨-, rfl⟩) | ⟨-, rfl⟩) | ⟨-, rfl⟩) <;> rfl

theorem applyVulnerability_cat (h : ℚ) (t : Tenant) :
    ∀ g ∈ (applyVulnerability h t).2, g.category = "VULNERABILITY" := by
  intro g hg
  unfold applyVulnerability at hg
  simp only [step_mem_iff, List.not_mem_nil, false_or] at hg
  rcases hg with (((⟨-, rfl⟩ | ⟨-, rfl⟩) | ⟨-, rfl⟩) | ⟨-, rfl⟩) <;> rfl

theorem applyEnvironmental_cat (h : ℚ) (temp : ℚ) (trade : String) (c : Concepts) :
    ∀ g ∈ (applyEnvironmental h temp trade c).2, g.category = "ENVIRONMENTAL" := by
  intro g hg
  unfold applyEnvironmental at hg
  simp only [step_mem_iff] at hg
  rcases hg with ((hg | ⟨-, rfl⟩) | ⟨-, rfl⟩)
  · split_ifs at hg <;> simp_all <;> subst hg <;> rfl
  · rfl
  · rfl

theorem applyTiming_cat (h : ℚ) (t : Timing) :
    ∀ g ∈ (applyTiming h t).2, g.category = "TIMING" := by
  intro g hg
  unfold applyTiming at hg
  split_ifs at hg <;> simp_all <;> subst hg <;> rfl

theorem applyRecurrence_cat (h : ℚ) (hist : History) (c : Concepts) :
    ∀ g ∈ (applyRecurrence h hist c).2, g.category = "RECURRENCE" := by
  intro g hg
  unfold applyRecurrence at hg
  split_ifs at hg <;> simp_all <;> subst hg <;> rfl

theorem applyProperty_cat (h : ℚ) (p : PropertyInfo) (trade : String) (c : Concepts) :
    ∀ g ∈ (applyProperty h p trade c).2, g.category = "PROPERTY_RISK" := by
  intro g hg
  unfold applyProperty at hg
  simp only [step_mem_iff, List.not_mem_nil, false_or] at hg
  rcases hg with ((⟨-, rfl⟩ | ⟨-, rfl⟩) | ⟨-, rfl⟩) <;> rfl

theorem applyEssentialService_cat (h : ℚ) (c : Concepts) :
    ∀ g ∈ (applyEssentialService h c).2, g.category = "ESSENTIAL_SERVICE" := by
  intro g hg
  unfold applyEssentialService at hg
  simp only [step_mem_iff, List.not_mem_nil, false_or] at hg
  rcases hg with (((⟨-, rfl⟩ | ⟨-, rfl⟩) | ⟨-, rfl⟩) | ⟨-, rfl⟩) <;> rfl

theorem applyTiming_len (h : ℚ) (t : Timing) : (applyTiming h t).2.length ≤ 1 := by
  unfold applyTiming
  split_ifs <;> simp

theorem applyRecurrence_len (h : ℚ) (hist : History) (c : Concepts) :
    (applyRecurrence h hist c).2.length ≤ 1 := by
  unfold applyRecurrence
  split_ifs <;> simp

theorem applyEnvironmental_len (h : ℚ) (temp : ℚ) (trade : String) (c : Concepts) :
    (applyEnvironmental h temp trade c).2.length ≤ 2 := by
  unfold applyEnvironmental step
  split_ifs <;>
    simp_all only [Bool.and_eq_true, Bool.or_eq_true, decide_eq_true_eq] <;>
    simp_all <;> linarith [h]

/-- A category count over the applied-factor list reduces to the count
inside the one pass that emits that category. -/
theorem countP_cat_zero {cat : String} {l : List PriorityFactor} {other : String}
    (hl : ∀ g ∈ l, g.category = other) (hne : other ≠ cat) :
    l.countP (fun f => f.category == cat) = 0 := by
  rw [List.countP_eq_zero]
  intro g hg
  simp [hl g hg, hne]



/-- C6 counterexample: a MEDIUM plumbing request with a "no heat" text
match at 20°F gets two ENVIRONMENTAL factors (the extreme-cold factor via
the text condition and the freeze-risk factor via the trade), and with no
timing flag set it gets zero TIMING factors. -/
theorem C6_counterexample :
    ((calculatePriority coldPlumbingInput).applied_factors.countP
        (fun f => f.category == "ENVIRONMENTAL")) = 2 ∧
      ((calculatePriority coldPlumbingInput).applied_factors.map
        (fun f => f.name)) = ["No heat + extreme cold", "Freeze risk"] ∧
      ((calculatePriority coldPlumbingInput).applied_factors.countP
        (fun f => f.category == "TIMING")) = 0 := by
  refine ⟨by decide, by decide, by decide⟩

/-- C6 amended: every request gets at most one TIMING factor, at most two
ENVIRONMENTAL factors (the mutually exclusive cold pair, plus possibly
the independent extreme-heat or freeze-risk check), and at most one
RECURRENCE factor. -/
theorem C6_amended_exclusive (inp : PriorityInput) :
    ((calculatePriority inp).applied_factors.countP
        (fun f => f.category == "TIMING")) ≤ 1 ∧
      ((calculatePriority inp).applied_factors.countP
        (fun f => f.category == "ENVIRONMENTAL")) ≤ 2 ∧
      ((calculatePriority inp).applied_factors.countP
        (fun f => f.category == "RECURRENCE")) ≤ 1 := by
  simp only [calculatePriority, List.countP_append]
  refine ⟨?_, ?_, ?_⟩
  · rw [countP_cat_zero (applyLifeSafety_cat _ _) (by decide),
      countP_cat_zero (applyActiveDamage_cat _ _) (by decide),
      countP_cat_zero (applyVulnerability_cat _ _) (by decide),
      countP_cat_zero (applyEnvironmental_cat _ _ _ _) (by decide),
      countP_cat_zero (applyRecurrence_cat _ _ _) (by decide),
      countP_cat_zero (applyProperty_cat _ _ _ _) (by decide),
      countP_cat_zero (applyEssentialService_cat _ _) (by decide)]
    simpa using le_trans (List.countP_le_length _) (applyTiming_len _ _)
  · rw [countP_cat_zero (applyLifeSafety_cat _ _) (by decide),
      countP_cat_zero (applyActiveDamage_cat _ _) (by decide),
      countP_cat_zero (applyVulnerability_cat _ _) (by decide),
      countP_cat_zero (applyTiming_cat _ _) (by decide),
      countP_cat_zero (applyRecurrence_cat _ _ _) (by decide),
      countP_cat_zero (applyProperty_cat _ _ _ _) (by decide),
      countP_cat_zero (applyEssentialService_cat _ _) (by decide)]
    simpa using le_trans (List.countP_le_length _) (applyEnvironmental_len _ _ _ _)
  · rw [countP_cat_zero (applyLifeSafety_cat _ _) (by decide),
      countP_cat_zero (applyActiveDamage_cat _ _) (by decide),
      countP_cat_zero (applyVulnerability_cat _ _) (by decide),
      countP_cat_zero (applyEnvironmental_cat _ _ _ _) (by decide),
      countP_cat_zero (applyTiming_cat _ _) (by decide),
      countP_cat_zero (applyProperty_cat _ _ _ _) (by decide),
      countP_cat_zero (applyEssentialService_cat _ _) (by decide)]
    simpa using le_trans (List.countP_le_length _) (applyRecurrence_len _ _ _)



/-! ## C7: monotonicity machinery -/

theorem any_applyLifeSafety (h : ℚ) (c : Concepts) (P : PriorityFactor → Bool) :
    ((applyLifeSafety h c).2).any P =
      ((c.gasLeak && P gasFactor) || (c.fireSmoke && P fireFactor) ||
        (c.carbonMonoxide && P coFactor) || (c.electricalShock && P shockFactor) ||
        (c.sewage && P sewageFactor)) := by
  unfold applyLifeSafety step
  split_ifs <;> simp_all [Bool.or_assoc]

theorem any_applyActiveDamage (h : ℚ) (c : Concepts) (P : PriorityFactor → Bool) :
    ((applyActiveDamage h c).2).any P =
      ((c.waterSpreading && P waterSpreadFactor) ||
        (c.ceilingDrip && P ceilingDripFactor) ||
        (c.gettingWorse && P worseFactor) || (c.evacuated && P evacuatedFactor)) := by
  unfold applyActiveDamage step
  split_ifs <;> simp_all [Bool.or_assoc]

theorem any_applyVulnerability (h : ℚ) (t : Tenant) (P : PriorityFactor → Bool) :
    ((applyVulnerability h t).2).any P =
      ((t.hasMedicalCondition && P medicalFactor) ||
        (t.hasInfant && P infantFactor) ||
        ((t.isElderly || decide (75 ≤ t.age)) && P elderlyFactor) ||
        (t.isPregnant && P pregnantFactor)) := by
  unfold applyVulnerability step
  cases hE : (t.isElderly || decide (75 ≤ t.age)) <;>
    split_ifs <;> simp_all [Bool.or_assoc]

theorem any_applyEnvironmental (h : ℚ) (temp : ℚ) (trade : String)
    (c : Concepts) (P : PriorityFactor → Bool) :
    ((applyEnvironmental h temp trade c).2).any P =
      (((decide (temp < 40) && (decide (trade = "HVAC") || c.noHeat)) &&
          P extremeColdFactor) ||
        ((!(decide (temp < 40) && (decide (trade = "HVAC") || c.noHeat)) &&
            (decide (temp < 50) && (decide (trade = "HVAC") || c.noHeat))) &&
          P coldFactor) ||
        ((decide (95 < temp) && (decide (trade = "HVAC") || c.noAc)) &&
          P extremeHeatFactor) ||
        ((decide (temp < 32) && decide (trade = "PLUMBING")) && P freezeFactor)) := by
  unfold applyEnvironmental step
  cases h1 : (decide (temp < 40) && (decide (trade = "HVAC") || c.noHeat)) <;>
  cases h2 : (decide (temp < 50) && (decide (trade = "HVAC") || c.noHeat)) <;>
  cases h3 : (decide (95 < temp) && (decide (trade = "HVAC") || c.noAc)) <;>
  cases h4 : (decide (temp < 32) && decide (trade = "PLUMBING")) <;>
    first | rfl | simp_all [Bool.or_assoc]

theorem any_applyTiming (h : ℚ) (t : Timing) (P : PriorityFactor → Bool) :
    ((applyTiming h t).2).any P =
      ((t.isLateNight && P lateNightFactor) ||
        ((!t.isLateNight && t.isHoliday) && P holidayFactor) ||
        ((!t.isLateNight && !t.isHoliday && t.isAfterHours) && P afterHoursFactor) ||
        ((!t.isLateNight && !t.isHoliday && !t.isAfterHours && t.isWeekend) &&
          P weekendFactor)) := by
  unfold applyTiming
  split_ifs <;> simp_all [Bool.or_assoc]

theorem any_applyRecurrence (h : ℚ) (hist : History) (c : Concepts)
    (P : PriorityFactor → Bool) :
    ((applyRecurrence h hist c).2).any P =
      (((decide (3 ≤ hist.recentIssuesCount) || c.thirdTime) && P thirdTimeFactor) ||
        ((!(decide (3 ≤ hist.recentIssuesCount) || c.thirdTime) &&
            (hist.previousRepairFailed || c.repairFailed)) && P repairFailedFactor) ||
        ((!(decide (3 ≤ hist.recentIssuesCount) || c.thirdTime) &&
            !(hist.previousRepairFailed || c.repairFailed) &&
            decide (1 ≤ hist.recentIssuesCount)) && P recentIssueFactor)) := by
  unfold applyRecurrence
  cases h1 : (decide (3 ≤ hist.recentIssuesCount) || c.thirdTime) <;>
  cases h2 : (hist.previousRepairFailed || c.repairFailed) <;>
  cases h3 : (decide (1 ≤ hist.recentIssuesCount)) <;>
    first | rfl | simp_all [Bool.or_assoc]

theorem any_applyProperty (h : ℚ) (p : PropertyInfo) (trade : String)
    (c : Concepts) (P : PriorityFactor → Bool) :
    ((applyProperty h p trade c).2).any P =
      ((c.structural && P structuralFactor) ||
        ((decide (1 < p.floor) && decide (trade = "PLUMBING")) && P upperFloorFactor) ||
        (decide (1 < p.totalUnits) && P multiUnitFactor)) := by
  unfold applyProperty step
  cases h1 : c.structural <;>
  cases h2 : (decide (1 < p.floor) && decide (trade = "PLUMBING")) <;>
  cases h3 : (decide (1 < p.totalUnits)) <;>
    first | rfl | simp_all [Bool.or_assoc]

theorem any_applyEssentialService (h : ℚ) (c : Concepts) (P : PriorityFactor → Bool) :
    ((applyEssentialService h c).2).any P =
      ((c.lockedOut && P lockedOutFactor) || (c.noPower && P noPowerFactor) ||
        (c.noWater && P noWaterFactor) || (c.noToilet && P noToiletFactor)) := by
  unfold applyEssentialService step
  split_ifs <;> simp_all [Bool.or_assoc]


/-! Name-predicate evaluations over the factor catalogue. -/

theorem gasFactor_w : strContains (strLower gasFactor.name) "water" = false := by decide
theorem gasFactor_e : strContains (strLower gasFactor.name) "electrical" = false := by decide
theorem gasFactor_s : strContains (strLower gasFactor.name) "spreading" = false := by decide
theorem gasFactor_o : strContains (strLower gasFactor.name) "worse" = false := by decide
theorem fireFactor_w : strContains (strLower fireFactor.name) "water" = false := by decide
theorem fireFactor_e : strContains (strLower fireFactor.name) "electrical" = false := by decide
theorem fireFactor_s : strContains (strLower fireFactor.name) "spreading" = false := by decide
theorem fireFactor_o : strContains (strLower fireFactor.name) "worse" = false := by decide
theorem coFactor_w : strContains (strLower coFactor.name) "water" = false := by decide
theorem coFactor_e : strContains (strLower coFactor.name) "electrical" = false := by decide
theorem coFactor_s : strContains (strLower coFactor.name) "spreading" = false := by decide
theorem coFactor_o : strContains (strLower coFactor.name) "worse" = false := by decide
theorem shockFactor_w : strContains (strLower shockFactor.name) "water" = false := by decide
theorem shockFactor_e : strContains (strLower shockFactor.name) "electrical" = true := by decide
theorem shockFactor_s : strContains (strLower shockFactor.name) "spreading" = false := by decide
theorem shockFactor_o : strContains (strLower shockFactor.name) "worse" = false := by decide
theorem sewageFactor_w : strContains (strLower sewageFactor.name) "water" = false := by decide
theorem sewageFactor_e : strContains (strLower sewageFactor.name) "electrical" = false := by decide
theorem sewageFactor_s : strContains (strLower sewageFactor.name) "spreading" = false := by decide
theorem sewageFactor_o : strContains (strLower sewageFactor.name) "worse" = false := by decide
theorem waterSpreadFactor_w : strContains (strLower waterSpreadFactor.name) "water" = true := by decide
theorem waterSpreadFactor_e : strContains (strLower waterSpreadFactor.name) "electrical" = false := by decide
theorem waterSpreadFactor_s : strContains (strLower waterSpreadFactor.name) "spreading" = true := by decide
theorem waterSpreadFactor_o : strContains (strLower waterSpreadFactor.name) "worse" = false := by decide
theorem ceilingDripFactor_w : strContains (strLower ceilingDripFactor.name) "water" = false := by decide
theorem ceilingDripFactor_e : strContains (strLower ceilingDripFactor.name) "electrical" = false := by decide
theorem ceilingDripFactor_s : strContains (strLower ceilingDripFactor.name) "spreading" = false := by decide
theorem ceilingDripFactor_o : strContains (strLower ceilingDripFactor.name) "worse" = false := by decide
theorem worseFactor_w : strContains (strLower worseFactor.name) "water" = false := by decide
theorem worseFactor_e : strContains (strLower worseFactor.name) "electrical" = false := by decide
theorem worseFactor_s : strContains (strLower worseFactor.name) "spreading" = false := by decide
theorem worseFactor_o : strContains (strLower worseFactor.name) "worse" = false := by decide
theorem evacuatedFactor_w : strContains (strLower evacuatedFactor.name) "water" = false := by decide
theorem evacuatedFactor_e : strContains (strLower evacuatedFactor.name) "electrical" = false := by decide
theorem evacuatedFactor_s : strContains (strLower evacuatedFactor.name) "spreading" = false := by decide
theorem evacuatedFactor_o : strContains (strLower evacuatedFactor.name) "worse" = false := by decide
theorem medicalFactor_w : strContains (strLower medicalFactor.name) "water" = false := by decide
theorem medicalFactor_e : strContains (strLower medicalFactor.name) "electrical" = false := by decide
theorem medicalFactor_s : strContains (strLower medicalFactor.name) "spreading" = false := by decide
theorem medicalFactor_o : strContains (strLower medicalFactor.name) "worse" = false := by decide
theorem infantFactor_w : strContains (strLower infantFactor.name) "water" = false := by decide
theorem infantFactor_e : strContains (strLower infantFactor.name) "electrical" = false := by decide
theorem infantFactor_s : strContains (strLower infantFactor.name) "spreading" = false := by decide
theorem infantFactor_o : strContains (strLower infantFactor.name) "worse" = false := by decide
theorem elderlyFactor_w : strContains (strLower elderlyFactor.name) "water" = false := by decide
theorem elderlyFactor_e : strContains (strLower elderlyFactor.name) "electrical" = false := by decide
theorem elderlyFactor_s : strContains (strLower elderlyFactor.name) "spreading" = false := by decide
theorem elderlyFactor_o : strContains (strLower elderlyFactor.name) "worse" = false := by decide
theorem pregnantFactor_w : strContains (strLower pregnantFactor.name) "water" = false := by decide
theorem pregnantFactor_e : strContains (strLower pregnantFactor.name) "electrical" = false := by decide
theorem pregnantFactor_s : strContains (strLower pregnantFactor.name) "spreading" = false := by decide
theorem pregnantFactor_o : strContains (strLower pregnantFactor.name) "worse" = false := by decide
theorem extremeColdFactor_w : strContains (strLower extremeColdFactor.name) "water" = false := by decide
theorem extremeColdFactor_e : strContains (strLower extremeColdFactor.name) "electrical" = false := by decide
theorem extremeColdFactor_s : strContains (strLower extremeColdFactor.name) "spreading" = false := by decide
theorem extremeColdFactor_o : strContains (strLower extremeColdFactor.name) "worse" = false := by decide
theorem coldFactor_w : strContains (strLower coldFactor.name) "water" = false := by decide
theorem coldFactor_e : strContains (strLower coldFactor.name) "electrical" = false := by decide
theorem coldFactor_s : strContains (strLower coldFactor.name) "spreading" = false := by decide
theorem coldFactor_o : strContains (strLower coldFactor.name) "worse" = false := by decide
theorem extremeHeatFactor_w : strContains (strLower extremeHeatFactor.name) "water" = false := by decide
theorem extremeHeatFactor_e : strContains (strLower extremeHeatFactor.name) "electrical" = false := by decide
theorem extremeHeatFactor_s : strContains (strLower extremeHeatFactor.name) "spreading" = false := by decide
theorem extremeHeatFactor_o : strContains (strLower extremeHeatFactor.name) "worse" = false := by decide
theorem freezeFactor_w : strContains (strLower freezeFactor.name) "water" = false := by decide
theorem freezeFactor_e : strContains (strLower freezeFactor.name) "electrical" = false := by decide
theorem freezeFactor_s : strContains (strLower freezeFactor.name) "spreading" = false := by decide
theorem freezeFactor_o : strContains (strLower freezeFactor.name) "worse" = false := by decide
theorem lateNightFactor_w : strContains (strLower lateNightFactor.name) "water" = false := by decide
theorem lateNightFactor_e : strContains (strLower lateNightFactor.name) "electrical" = false := by decide
theorem lateNightFactor_s : strContains (strLower lateNightFactor.name) "spreading" = false := by decide
theorem lateNightFactor_o : strContains (strLower lateNightFactor.name) "worse" = false := by decide
theorem holidayFactor_w : strContains (strLower holidayFactor.name) "water" = false := by decide
theorem holidayFactor_e : strContains (strLower holidayFactor.name) "electrical" = false := by decide
theorem holidayFactor_s : strContains (strLower holidayFactor.name) "spreading" = false := by decide
theorem holidayFactor_o : strContains (strLower holidayFactor.name) "worse" = false := by decide
theorem afterHoursFactor_w : strContains (strLower afterHoursFactor.name) "water" = false := by decide
theorem afterHoursFactor_e : strContains (strLower afterHoursFactor.name) "electrical" = false := by decide
theorem afterHoursFactor_s : strContains (strLower afterHoursFactor.name) "spreading" = false := by decide
theorem afterHoursFactor_o : strContains (strLower afterHoursFactor.name) "worse" = false := by decide
theorem weekendFactor_w : strContains (strLower weekendFactor.name) "water" = false := by decide
theorem weekendFactor_e : strContains (strLower weekendFactor.name) "electrical" = false := by decide
theorem weekendFactor_s : strContains (strLower weekendFactor.name) "spreading" = false := by decide
theorem weekendFactor_o : strContains (strLower weekendFactor.name) "worse" = false := by decide
theorem thirdTimeFactor_w : strContains (strLower thirdTimeFactor.name) "water" = false := by decide
theorem thirdTimeFactor_e : strContains (strLower thirdTimeFactor.name) "electrical" = false := by decide
theorem thirdTimeFactor_s : strContains (strLower thirdTimeFactor.name) "spreading" = false := by decide
theorem thirdTimeFactor_o : strContains (strLower thirdTimeFactor.name) "worse" = false := by decide
theorem repairFailedFactor_w : strContains (strLower repairFailedFactor.name) "water" = false := by decide
theorem repairFailedFactor_e : strContains (strLower repairFailedFactor.name) "electrical" = false := by decide
theorem repairFailedFactor_s : strContains (strLower repairFailedFactor.name) "spreading" = false := by decide
theorem repairFailedFactor_o : strContains (strLower repairFailedFactor.name) "worse" = false := by decide
theorem recentIssueFactor_w : strContains (strLower recentIssueFactor.name) "water" = false := by decide
theorem recentIssueFactor_e : strContains (strLower recentIssueFactor.name) "electrical" = false := by decide
theorem recentIssueFactor_s : strContains (strLower recentIssueFactor.name) "spreading" = false := by decide
theorem recentIssueFactor_o : strContains (strLower recentIssueFactor.name) "worse" = false := by decide
theorem structuralFactor_w : strContains (strLower structuralFactor.name) "water" = false := by decide
theorem structuralFactor_e : strContains (strLower structuralFactor.name) "electrical" = false := by decide
theorem structuralFactor_s : strContains (strLower structuralFactor.name) "spreading" = false := by decide
theorem structuralFactor_o : strContains (strLower structuralFactor.name) "worse" = false := by decide
theorem upperFloorFactor_w : strContains (strLower upperFloorFactor.name) "water" = true := by decide
theorem upperFloorFactor_e : strContains (strLower upperFloorFactor.name) "electrical" = false := by decide
theorem upperFloorFactor_s : strContains (strLower upperFloorFactor.name) "spreading" = false := by decide
theorem upperFloorFactor_o : strContains (strLower upperFloorFactor.name) "worse" = false := by decide
theorem multiUnitFactor_w : strContains (strLower multiUnitFactor.name) "water" = false := by decide
theorem multiUnitFactor_e : strContains (strLower multiUnitFactor.name) "electrical" = false := by decide
theorem multiUnitFactor_s : strContains (strLower multiUnitFactor.name) "spreading" = false := by decide
theorem multiUnitFactor_o : strContains (strLower multiUnitFactor.name) "worse" = false := by decide
theorem lockedOutFactor_w : strContains (strLower lockedOutFactor.name) "water" = false := by decide
theorem lockedOutFactor_e : strContains (strLower lockedOutFactor.name) "electrical" = false := by decide
theorem lockedOutFactor_s : strContains (strLower lockedOutFactor.name) "spreading" = false := by decide
theorem lockedOutFactor_o : strContains (strLower lockedOutFactor.name) "worse" = false := by decide
theorem noPowerFactor_w : strContains (strLower noPowerFactor.name) "water" = false := by decide
theorem noPowerFactor_e : strContains (strLower noPowerFactor.name) "electrical" = false := by decide
theorem noPowerFactor_s : strContains (strLower noPowerFactor.name) "spreading" = false := by decide
theorem noPowerFactor_o : strContains (strLower noPowerFactor.name) "worse" = false := by decide
theorem noWaterFactor_w : strContains (strLower noWaterFactor.name) "water" = true := by decide
theorem noWaterFactor_e : strContains (strLower noWaterFactor.name) "electrical" = false := by decide
theorem noWaterFactor_s : strContains (strLower noWaterFactor.name) "spreading" = false := by decide
theorem noWaterFactor_o : strContains (strLower noWaterFactor.name) "worse" = false := by decide
theorem noToiletFactor_w : strContains (strLower noToiletFactor.name) "water" = false := by decide
theorem noToiletFactor_e : strContains (strLower noToiletFactor.name) "electrical" = false := by decide
theorem noToiletFactor_s : strContains (strLower noToiletFactor.name) "spreading" = false := by decide
theorem noToiletFactor_o : strContains (strLower noToiletFactor.name) "worse" = false := by decide



/-! Category evaluations over the factor catalogue. -/

theorem gasFactor_cvul : (gasFactor.category == "VULNERABILITY") = false := by decide
theorem gasFactor_cenv : (gasFactor.category == "ENVIRONMENTAL") = false := by decide
theorem gasFactor_crec : (gasFactor.category == "RECURRENCE") = false := by decide
theorem fireFactor_cvul : (fireFactor.category == "VULNERABILITY") = false := by decide
theorem fireFactor_cenv : (fireFactor.category == "ENVIRONMENTAL") = false := by decide
theorem fireFactor_crec : (fireFactor.category == "RECURRENCE") = false := by decide
theorem coFactor_cvul : (coFactor.category == "VULNERABILITY") = false := by decide
theorem coFactor_cenv : (coFactor.category == "ENVIRONMENTAL") = false := by decide
theorem coFactor_crec : (coFactor.category == "RECURRENCE") = false := by decide
theorem shockFactor_cvul : (shockFactor.category == "VULNERABILITY") = false := by decide
theorem shockFactor_cenv : (shockFactor.category == "ENVIRONMENTAL") = false := by decide
theorem shockFactor_crec : (shockFactor.category == "RECURRENCE") = false := by decide
theorem sewageFactor_cvul : (sewageFactor.category == "VULNERABILITY") = false := by decide
theorem sewageFactor_cenv : (sewageFactor.category == "ENVIRONMENTAL") = false := by decide
theorem sewageFactor_crec : (sewageFactor.category == "RECURRENCE") = false := by decide
theorem waterSpreadFactor_cvul : (waterSpreadFactor.category == "VULNERABILITY") = false := by decide
theorem waterSpreadFactor_cenv : (waterSpreadFactor.category == "ENVIRONMENTAL") = false := by decide
theorem waterSpreadFactor_crec : (waterSpreadFactor.category == "RECURRENCE") = false := by decide
theorem ceilingDripFactor_cvul : (ceilingDripFactor.category == "VULNERABILITY") = false := by decide
theorem ceilingDripFactor_cenv : (ceilingDripFactor.category == "ENVIRONMENTAL") = false := by decide
theorem ceilingDripFactor_crec : (ceilingDripFactor.category == "RECURRENCE") = false := by decide
theorem worseFactor_cvul : (worseFactor.category == "VULNERABILITY") = false := by decide
theorem worseFactor_cenv : (worseFactor.category == "ENVIRONMENTAL") = false := by decide
theorem worseFactor_crec : (worseFactor.category == "RECURRENCE") = false := by decide
theorem evacuatedFactor_cvul : (evacuatedFactor.category == "VULNERABILITY") = false := by decide
theorem evacuatedFactor_cenv : (evacuatedFactor.category == "ENVIRONMENTAL") = false := by decide
theorem evacuatedFactor_crec : (evacuatedFactor.category == "RECURRENCE") = false := by decide
theorem medicalFactor_cvul : (medicalFactor.category == "VULNERABILITY") = true := by decide
theorem medicalFactor_cenv : (medicalFactor.category == "ENVIRONMENTAL") = false := by decide
theorem medicalFactor_crec : (medicalFactor.category == "RECURRENCE") = false := by decide
theorem infantFactor_cvul : (infantFactor.category == "VULNERABILITY") = true := by decide
theorem infantFactor_cenv : (infantFactor.category == "ENVIRONMENTAL") = false := by decide
theorem infantFactor_crec : (infantFactor.category == "RECURRENCE") = false := by decide
theorem elderlyFactor_cvul : (elderlyFactor.category == "VULNERABILITY") = true := by decide
theorem elderlyFactor_cenv : (elderlyFactor.category == "ENVIRONMENTAL") = false := by decide
theorem elderlyFactor_crec : (elderlyFactor.category == "RECURRENCE") = false := by decide
theorem pregnantFactor_cvul : (pregnantFactor.category == "VULNERABILITY") = true := by decide
theorem pregnantFactor_cenv : (pregnantFactor.category == "ENVIRONMENTAL") = false := by decide
theorem pregnantFactor_crec : (pregnantFactor.category == "RECURRENCE") = false := by decide
theorem extremeColdFactor_cvul : (extremeColdFactor.category == "VULNERABILITY") = false := by decide
theorem extremeColdFactor_cenv : (extremeColdFactor.category == "ENVIRONMENTAL") = true := by decide
theorem extremeColdFactor_crec : (extremeColdFactor.category == "RECURRENCE") = false := by decide
theorem coldFactor_cvul : (coldFactor.category == "VULNERABILITY") = false := by decide
theorem coldFactor_cenv : (coldFactor.category == "ENVIRONMENTAL") = true := by decide
theorem coldFactor_crec : (coldFactor.category == "RECURRENCE") = false := by decide
theorem extremeHeatFactor_cvul : (extremeHeatFactor.category == "VULNERABILITY") = false := by decide
theorem extremeHeatFactor_cenv : (extremeHeatFactor.category == "ENVIRONMENTAL") = true := by decide
theorem extremeHeatFactor_crec : (extremeHeatFactor.category == "RECURRENCE") = false := by decide
theorem freezeFactor_cvul : (freezeFactor.category == "VULNERABILITY") = false := by decide
theorem freezeFactor_cenv : (freezeFactor.category == "ENVIRONMENTAL") = true := by decide
theorem freezeFactor_crec : (freezeFactor.category == "RECURRENCE") = false := by decide
theorem lateNightFactor_cvul : (lateNightFactor.category == "VULNERABILITY") = false := by decide
theorem lateNightFactor_cenv : (lateNightFactor.category == "ENVIRONMENTAL") = false := by decide
theorem lateNightFactor_crec : (lateNightFactor.category == "RECURRENCE") = false := by decide
theorem holidayFactor_cvul : (holidayFactor.category == "VULNERABILITY") = false := by decide
theorem holidayFactor_cenv : (holidayFactor.category == "ENVIRONMENTAL") = false := by decide
theorem holidayFactor_crec : (holidayFactor.category == "RECURRENCE") = false := by decide
theorem afterHoursFactor_cvul : (afterHoursFactor.category == "VULNERABILITY") = false := by decide
theorem afterHoursFactor_cenv : (afterHoursFactor.category == "ENVIRONMENTAL") = false := by decide
theorem afterHoursFactor_crec : (afterHoursFactor.category == "RECURRENCE") = false := by decide
theorem weekendFactor_cvul : (weekendFactor.category == "VULNERABILITY") = false := by decide
theorem weekendFactor_cenv : (weekendFactor.category == "ENVIRONMENTAL") = false := by decide
theorem weekendFactor_crec : (weekendFactor.category == "RECURRENCE") = false := by decide
theorem thirdTimeFactor_cvul : (thirdTimeFactor.category == "VULNERABILITY") = false := by decide
theorem thirdTimeFactor_cenv : (thirdTimeFactor.category == "ENVIRONMENTAL") = false := by decide
theorem thirdTimeFactor_crec : (thirdTimeFactor.category == "RECURRENCE") = true := by decide
theorem repairFailedFactor_cvul : (repairFailedFactor.category == "VULNERABILITY") = false := by decide
theorem repairFailedFactor_cenv : (repairFailedFactor.category == "ENVIRONMENTAL") = false := by decide
theorem repairFailedFactor_crec : (repairFailedFactor.category == "RECURRENCE") = true := by decide
theorem recentIssueFactor_cvul : (recentIssueFactor.category == "VULNERABILITY") = false := by decide
theorem recentIssueFactor_cenv : (recentIssueFactor.category == "ENVIRONMENTAL") = false := by decide
theorem recentIssueFactor_crec : (recentIssueFactor.category == "RECURRENCE") = true := by decide
theorem structuralFactor_cvul : (structuralFactor.category == "VULNERABILITY") = false := by decide
theorem structuralFactor_cenv : (structuralFactor.category == "ENVIRONMENTAL") = false := by decide
theorem structuralFactor_crec : (structuralFactor.category == "RECURRENCE") = false := by decide
theorem upperFloorFactor_cvul : (upperFloorFactor.category == "VULNERABILITY") = false := by decide
theorem upperFloorFactor_cenv : (upperFloorFactor.category == "ENVIRONMENTAL") = false := by decide
theorem upperFloorFactor_crec : (upperFloorFactor.category == "RECURRENCE") = false := by decide
theorem multiUnitFactor_cvul : (multiUnitFactor.category == "VULNERABILITY") = false := by decide
theorem multiUnitFactor_cenv : (multiUnitFactor.category == "ENVIRONMENTAL") = false := by decide
theorem multiUnitFactor_crec : (multiUnitFactor.category == "RECURRENCE") = false := by decide
theorem lockedOutFactor_cvul : (lockedOutFactor.category == "VULNERABILITY") = false := by decide
theorem lockedOutFactor_cenv : (lockedOutFactor.category == "ENVIRONMENTAL") = false := by decide
theorem lockedOutFactor_crec : (lockedOutFactor.category == "RECURRENCE") = false := by decide
theorem noPowerFactor_cvul : (noPowerFactor.category == "VULNERABILITY") = false := by decide
theorem noPowerFactor_cenv : (noPowerFactor.category == "ENVIRONMENTAL") = false := by decide
theorem noPowerFactor_crec : (noPowerFactor.category == "RECURRENCE") = false := by decide
theorem noWaterFactor_cvul : (noWaterFactor.category == "VULNERABILITY") = false := by decide
theorem noWaterFactor_cenv : (noWaterFactor.category == "ENVIRONMENTAL") = false := by decide
theorem noWaterFactor_crec : (noWaterFactor.category == "RECURRENCE") = false := by decide
theorem noToiletFactor_cvul : (noToiletFactor.category == "VULNERABILITY") = false := by decide
theorem noToiletFactor_cenv : (noToiletFactor.category == "ENVIRONMENTAL") = false := by decide
theorem noToiletFactor_crec : (noToiletFactor.category == "RECURRENCE") = false := by decide

/-- Having some vulnerability factor is monotone under the pointwise input order. -/
theorem hasVuln_mono {x y : PriorityInput} (hle : InputLe x y) :
    ((calculatePriority x).applied_factors).any
        (fun f => f.category == "VULNERABILITY") = true →
      ((calculatePriority y).applied_factors).any
        (fun f => f.category == "VULNERABILITY") = true := by
  obtain ⟨hsev, htrade, eg, ef, eco, esh, esw, ews, ecd, egw, eev, enh, ena,
    enw, enp, ent, elo, est, ett, erf, emed, einf, eeld, epreg, hage, ht40,
    ht50, ht95, ht32, hfl, hun, eln, ehol, eah, ewe, hc1, hc3, eprf⟩ := hle
  simp only [calculatePriority, List.any_append, any_applyLifeSafety,
    any_applyActiveDamage, any_applyVulnerability, any_applyEnvironmental,
    any_applyTiming, any_applyRecurrence, any_applyProperty,
    any_applyEssentialService]
  simp only [gasFactor_cvul, fireFactor_cvul, coFactor_cvul, shockFactor_cvul, sewageFactor_cvul, waterSpreadFactor_cvul, ceilingDripFactor_cvul, worseFactor_cvul, evacuatedFactor_cvul, medicalFactor_cvul, infantFactor_cvul, elderlyFactor_cvul, pregnantFactor_cvul, extremeColdFactor_cvul, coldFactor_cvul, extremeHeatFactor_cvul, freezeFactor_cvul, lateNightFactor_cvul, holidayFactor_cvul, afterHoursFactor_cvul, weekendFactor_cvul, thirdTimeFactor_cvul, repairFailedFactor_cvul, recentIssueFactor_cvul, structuralFactor_cvul, upperFloorFactor_cvul, multiUnitFactor_cvul, lockedOutFactor_cvul, noPowerFactor_cvul, noWaterFactor_cvul, noToiletFactor_cvul]
  simp only [Bool.and_false, Bool.and_true, Bool.or_false, Bool.false_or,
    Bool.or_true, Bool.true_or]
  simp only [Bool.or_eq_true, decide_eq_true_eq]
  rintro (((hm | hi) | he | ha) | hp)
  · exact Or.inl (Or.inl (Or.inl (emed hm)))
  · exact Or.inl (Or.inl (Or.inr (einf hi)))
  · exact Or.inl (Or.inr (Or.inl (eeld he)))
  · exact Or.inl (Or.inr (Or.inr (hage ha)))
  · exact Or.inr (epreg hp)

/-- Having some environmental factor is monotone under the pointwise input order. -/
theorem hasEnv_mono {x y : PriorityInput} (hle : InputLe x y) :
    ((calculatePriority x).applied_factors).any
        (fun f => f.category == "ENVIRONMENTAL") = true →
      ((calculatePriority y).applied_factors).any
        (fun f => f.category == "ENVIRONMENTAL") = true := by
  obtain ⟨hsev, htrade, eg, ef, eco, esh, esw, ews, ecd, egw, eev, enh, ena,
    enw, enp, ent, elo, est, ett, erf, emed, einf, eeld, epreg, hage, ht40,
    ht50, ht95, ht32, hfl, hun, eln, ehol, eah, ewe, hc1, hc3, eprf⟩ := hle
  simp only [calculatePriority, List.any_append, any_applyLifeSafety,
    any_applyActiveDamage, any_applyVulnerability, any_applyEnvironmental,
    any_applyTiming, any_applyRecurrence, any_applyProperty,
    any_applyEssentialService]
  simp only [gasFactor_cenv, fireFactor_cenv, coFactor_cenv, shockFactor_cenv, sewageFactor_cenv, waterSpreadFactor_cenv, ceilingDripFactor_cenv, worseFactor_cenv, evacuatedFactor_cenv, medicalFactor_cenv, infantFactor_cenv, elderlyFactor_cenv, pregnantFactor_cenv, extremeColdFactor_cenv, coldFactor_cenv, extremeHeatFactor_cenv, freezeFactor_cenv, lateNightFactor_cenv, holidayFactor_cenv, afterHoursFactor_cenv, weekendFactor_cenv, thirdTimeFactor_cenv, repairFailedFactor_cenv, recentIssueFactor_cenv, structuralFactor_cenv, upperFloorFactor_cenv, multiUnitFactor_cenv, lockedOutFactor_cenv, noPowerFactor_cenv, noWaterFactor_cenv, noToiletFactor_cenv]
  simp only [Bool.and_false, Bool.and_true, Bool.or_false, Bool.false_or,
    Bool.or_true, Bool.true_or]
  try simp only [htrade]
  simp only [Bool.or_eq_true, Bool.and_eq_true, decide_eq_true_eq]
  rintro (((⟨ht, hh⟩ | ⟨hnc, ht5, hh⟩) | ⟨ht9, hac⟩) | ⟨hf2, hpl⟩)
  · exact Or.inl (Or.inl (Or.inl ⟨ht40 ht, hh.imp id enh⟩))
  · by_cases hcy : (decide (y.temperature < 40) &&
        (decide (strUpper y.trade = "HVAC") || y.concepts.noHeat)) = true
    · simp only [Bool.and_eq_true, Bool.or_eq_true, decide_eq_true_eq] at hcy
      exact Or.inl (Or.inl (Or.inl hcy))
    · exact Or.inl (Or.inl (Or.inr
        ⟨by simp [Bool.of_not_eq_true hcy], ht50 ht5, hh.imp id enh⟩))
  · exact Or.inl (Or.inr ⟨ht95 ht9, hac.imp id ena⟩)
  · exact Or.inr ⟨ht32 hf2, hpl⟩

/-- Having some recurrence factor is monotone under the pointwise input order. -/
theorem hasRecur_mono {x y : PriorityInput} (hle : InputLe x y) :
    ((calculatePriority x).applied_factors).any
        (fun f => f.category == "RECURRENCE") = true →
      ((calculatePriority y).applied_factors).any
        (fun f => f.category == "RECURRENCE") = true := by
  obtain ⟨hsev, htrade, eg, ef, eco, esh, esw, ews, ecd, egw, eev, enh, ena,
    enw, enp, ent, elo, est, ett, erf, emed, einf, eeld, epreg, hage, ht40,
    ht50, ht95, ht32, hfl, hun, eln, ehol, eah, ewe, hc1, hc3, eprf⟩ := hle
  simp only [calculatePriority, List.any_append, any_applyLifeSafety,
    any_applyActiveDamage, any_applyVulnerability, any_applyEnvironmental,
    any_applyTiming, any_applyRecurrence, any_applyProperty,
    any_applyEssentialService]
  simp only [gasFactor_crec, fireFactor_crec, coFactor_crec, shockFactor_crec, sewageFactor_crec, waterSpreadFactor_crec, ceilingDripFactor_crec, worseFactor_crec, evacuatedFactor_crec, medicalFactor_crec, infantFactor_crec, elderlyFactor_crec, pregnantFactor_crec, extremeColdFactor_crec, coldFactor_crec, extremeHeatFactor_crec, freezeFactor_crec, lateNightFactor_crec, holidayFactor_crec, afterHoursFactor_crec, weekendFactor_crec, thirdTimeFactor_crec, repairFailedFactor_crec, recentIssueFactor_crec, structuralFactor_crec, upperFloorFactor_crec, multiUnitFactor_crec, lockedOutFactor_crec, noPowerFactor_crec, noWaterFactor_crec, noToiletFactor_crec]
  simp only [Bool.and_false, Bool.and_true, Bool.or_false, Bool.false_or,
    Bool.or_true, Bool.true_or]
  simp only [Bool.or_eq_true, Bool.and_eq_true, decide_eq_true_eq]
  rintro ((hA | ⟨hnA, hB⟩) | ⟨⟨hnA, hnB⟩, hC⟩)
  · exact Or.inl (Or.inl (hA.imp hc3 ett))
  · by_cases hAy : (decide (3 ≤ y.history.recentIssuesCount) ||
        y.concepts.thirdTime) = true
    · exact Or.inl (Or.inl (by simpa using hAy))
    · exact Or.inl (Or.inr
        ⟨by simp [Bool.of_not_eq_true hAy], hB.imp eprf erf⟩)
  · by_cases hAy : (decide (3 ≤ y.history.recentIssuesCount) ||
        y.concepts.thirdTime) = true
    · exact Or.inl (Or.inl (by simpa using hAy))
    · by_cases hBy : (y.history.previousRepairFailed ||
          y.concepts.repairFailed) = true
      · exact Or.inl (Or.inr
          ⟨by simp [Bool.of_not_eq_true hAy], by simpa using hBy⟩)
      · exact Or.inr ⟨⟨by simp [Bool.of_not_eq_true hAy],
          by simp [Bool.of_not_eq_true hBy]⟩, hc1 hC⟩

/-- Having a water-named factor is monotone under the pointwise input order. -/
theorem hasWater_mono {x y : PriorityInput} (hle : InputLe x y) :
    ((calculatePriority x).applied_factors).any
        (fun f => strContains (strLower f.name) "water") = true →
      ((calculatePriority y).applied_factors).any
        (fun f => strContains (strLower f.name) "water") = true := by
  obtain ⟨hsev, htrade, eg, ef, eco, esh, esw, ews, ecd, egw, eev, enh, ena,
    enw, enp, ent, elo, est, ett, erf, emed, einf, eeld, epreg, hage, ht40,
    ht50, ht95, ht32, hfl, hun, eln, ehol, eah, ewe, hc1, hc3, eprf⟩ := hle
  simp only [calculatePriority, List.any_append, any_applyLifeSafety,
    any_applyActiveDamage, any_applyVulnerability, any_applyEnvironmental,
    any_applyTiming, any_applyRecurrence, any_applyProperty,
    any_applyEssentialService]
  simp only [gasFactor_w, fireFactor_w, coFactor_w, shockFactor_w, sewageFactor_w, waterSpreadFactor_w, ceilingDripFactor_w, worseFactor_w, evacuatedFactor_w, medicalFactor_w, infantFactor_w, elderlyFactor_w, pregnantFactor_w, extremeColdFactor_w, coldFactor_w, extremeHeatFactor_w, freezeFactor_w, lateNightFactor_w, holidayFactor_w, afterHoursFactor_w, weekendFactor_w, thirdTimeFactor_w, repairFailedFactor_w, recentIssueFactor_w, structuralFactor_w, upperFloorFactor_w, multiUnitFactor_w, lockedOutFactor_w, noPowerFactor_w, noWaterFactor_w, noToiletFactor_w]
  simp only [Bool.and_false, Bool.and_true, Bool.or_false, Bool.false_or,
    Bool.or_true, Bool.true_or]
  try simp only [htrade]
  simp only [Bool.or_eq_true, Bool.and_eq_true, decide_eq_true_eq]
  rintro ((hw | ⟨hf1, hpl⟩) | hn)
  · exact Or.inl (Or.inl (ews hw))
  · exact Or.inl (Or.inr ⟨hfl hf1, hpl⟩)
  · exact Or.inr (enw hn)

/-- Having an electrical-named factor is monotone under the pointwise input order. -/
theorem hasElecName_mono {x y : PriorityInput} (hle : InputLe x y) :
    ((calculatePriority x).applied_factors).any
        (fun f => strContains (strLower f.name) "electrical") = true →
      ((calculatePriority y).applied_factors).any
        (fun f => strContains (strLower f.name) "electrical") = true := by
  obtain ⟨hsev, htrade, eg, ef, eco, esh, esw, ews, ecd, egw, eev, enh, ena,
    enw, enp, ent, elo, est, ett, erf, emed, einf, eeld, epreg, hage, ht40,
    ht50, ht95, ht32, hfl, hun, eln, ehol, eah, ewe, hc1, hc3, eprf⟩ := hle
  simp only [calculatePriority, List.any_append, any_applyLifeSafety,
    any_applyActiveDamage, any_applyVulnerability, any_applyEnvironmental,
    any_applyTiming, any_applyRecurrence, any_applyProperty,
    any_applyEssentialService]
  simp only [gasFactor_e, fireFactor_e, coFactor_e, shockFactor_e, sewageFactor_e, waterSpreadFactor_e, ceilingDripFactor_e, worseFactor_e, evacuatedFactor_e, medicalFactor_e, infantFactor_e, elderlyFactor_e, pregnantFactor_e, extremeColdFactor_e, coldFactor_e, extremeHeatFactor_e, freezeFactor_e, lateNightFactor_e, holidayFactor_e, afterHoursFactor_e, weekendFactor_e, thirdTimeFactor_e, repairFailedFactor_e, recentIssueFactor_e, structuralFactor_e, upperFloorFactor_e, multiUnitFactor_e, lockedOutFactor_e, noPowerFactor_e, noWaterFactor_e, noToiletFactor_e]
  simp only [Bool.and_false, Bool.and_true, Bool.or_false, Bool.false_or,
    Bool.or_true, Bool.true_or]
  exact esh

/-- Having a spreading- or worse-named factor is monotone under the pointwise input order. -/
theorem hasSpread_mono {x y : PriorityInput} (hle : InputLe x y) :
    ((calculatePriority x).applied_factors).any
        (fun f => strContains (strLower f.name) "spreading" ||
          strContains (strLower f.name) "worse") = true →
      ((calculatePriority y).applied_factors).any
        (fun f => strContains (strLower f.name) "spreading" ||
          strContains (strLower f.name) "worse") = true := by
  obtain ⟨hsev, htrade, eg, ef, eco, esh, esw, ews, ecd, egw, eev, enh, ena,
    enw, enp, ent, elo, est, ett, erf, emed, einf, eeld, epreg, hage, ht40,
    ht50, ht95, ht32, hfl, hun, eln, ehol, eah, ewe, hc1, hc3, eprf⟩ := hle
  simp only [calculatePriority, List.any_append, any_applyLifeSafety,
    any_applyActiveDamage, any_applyVulnerability, any_applyEnvironmental,
    any_applyTiming, any_applyRecurrence, any_applyProperty,
    any_applyEssentialService]
  simp only [gasFactor_s, gasFactor_o, fireFactor_s, fireFactor_o, coFactor_s, coFactor_o, shockFactor_s, shockFactor_o, sewageFactor_s, sewageFactor_o, waterSpreadFactor_s, waterSpreadFactor_o, ceilingDripFactor_s, ceilingDripFactor_o, worseFactor_s, worseFactor_o, evacuatedFactor_s, evacuatedFactor_o, medicalFactor_s, medicalFactor_o, infantFactor_s, infantFactor_o, elderlyFactor_s, elderlyFactor_o, pregnantFactor_s, pregnantFactor_o, extremeColdFactor_s, extremeColdFactor_o, coldFactor_s, coldFactor_o, extremeHeatFactor_s, extremeHeatFactor_o, freezeFactor_s, freezeFactor_o, lateNightFactor_s, lateNightFactor_o, holidayFactor_s, holidayFactor_o, afterHoursFactor_s, afterHoursFactor_o, weekendFactor_s, weekendFactor_o, thirdTimeFactor_s, thirdTimeFactor_o, repairFailedFactor_s, repairFailedFactor_o, recentIssueFactor_s, recentIssueFactor_o, structuralFactor_s, structuralFactor_o, upperFloorFactor_s, upperFloorFactor_o, multiUnitFactor_s, multiUnitFactor_o, lockedOutFactor_s, lockedOutFactor_o, noPowerFactor_s, noPowerFactor_o, noWaterFactor_s, noWaterFactor_o, noToiletFactor_s, noToiletFactor_o]
  simp only [Bool.and_false, Bool.and_true, Bool.or_false, Bool.false_or,
    Bool.or_true, Bool.true_or]
  exact ews


theorem countV_factors (inp : PriorityInput) :
    ((calculatePriority inp).applied_factors).countP
        (fun f => f.category == "VULNERABILITY") =
      (if inp.tenant.hasMedicalCondition then 1 else 0) +
        (if inp.tenant.hasInfant then 1 else 0) +
        (if (inp.tenant.isElderly || decide (75 ≤ inp.tenant.age)) then 1 else 0) +
        (if inp.tenant.isPregnant then 1 else 0) := by
  simp only [calculatePriority, List.countP_append]
  rw [countP_cat_zero (applyLifeSafety_cat _ _) (by decide),
    countP_cat_zero (applyActiveDamage_cat _ _) (by decide),
    countP_cat_zero (applyEnvironmental_cat _ _ _ _) (by decide),
    countP_cat_zero (applyTiming_cat _ _) (by decide),
    countP_cat_zero (applyRecurrence_cat _ _ _) (by decide),
    countP_cat_zero (applyProperty_cat _ _ _ _) (by decide),
    countP_cat_zero (applyEssentialService_cat _ _) (by decide)]
  unfold applyVulnerability step
  split_ifs <;> simp_all [medicalFactor, infantFactor, elderlyFactor, pregnantFactor]

theorem ite_nat_mono {b1 b2 : Bool} (e : b1 = true → b2 = true) :
    (if b1 then (1:ℕ) else 0) ≤ if b2 then 1 else 0 := by
  cases b1 <;> cases b2 <;> simp_all

theorem countV_mono {x y : PriorityInput} (hle : InputLe x y) :
    ((calculatePriority x).applied_factors).countP
        (fun f => f.category == "VULNERABILITY") ≤
      ((calculatePriority y).applied_factors).countP
        (fun f => f.category == "VULNERABILITY") := by
  obtain ⟨hsev, htrade, eg, ef, eco, esh, esw, ews, ecd, egw, eev, enh, ena,
    enw, enp, ent, elo, est, ett, erf, emed, einf, eeld, epreg, hage, ht40,
    ht50, ht95, ht32, hfl, hun, eln, ehol, eah, ewe, hc1, hc3, eprf⟩ := hle
  rw [countV_factors, countV_factors]
  have h3 : (x.tenant.isElderly || decide (75 ≤ x.tenant.age)) = true →
      (y.tenant.isElderly || decide (75 ≤ y.tenant.age)) = true := by
    simp only [Bool.or_eq_true, decide_eq_true_eq]
    exact fun h => h.imp eeld hage
  exact Nat.add_le_add (Nat.add_le_add (Nat.add_le_add
    (ite_nat_mono emed) (ite_nat_mono einf)) (ite_nat_mono h3))
    (ite_nat_mono epreg)

/-! ## C7: closed forms for the hazard-ratio products -/

theorem mulStep {a b c d : ℚ} (h1 : a ≤ b ∧ 1 ≤ a) (h2 : c ≤ d ∧ 1 ≤ c) :
    a * c ≤ b * d ∧ 1 ≤ a * c := by
  obtain ⟨hab, ha⟩ := h1
  obtain ⟨hcd, hc⟩ := h2
  constructor
  · exact mul_le_mul hab hcd (by linarith) (by linarith)
  · nlinarith

theorem iteStep {b1 b2 : Bool} {r : ℚ} (h : b1 = true → b2 = true) (hr : 1 ≤ r) :
    ((if b1 then r else 1) ≤ (if b2 then r else 1)) ∧
      1 ≤ (if b1 then r else 1) := by
  cases b1 <;> cases b2 <;> simp_all

theorem chain2Step {v1 v2 : ℚ} (hv2 : 1 ≤ v2) (hv1 : v2 ≤ v1)
    {p1 p2 q1 q2 : Bool} (m1 : p1 = true → q1 = true)
    (m2 : p2 = true → q2 = true) :
    ((if p1 then v1 else if p2 then v2 else 1) ≤
        (if q1 then v1 else if q2 then v2 else 1)) ∧
      1 ≤ (if p1 then v1 else if p2 then v2 else 1) := by
  cases p1 <;> cases p2 <;> cases q1 <;> cases q2 <;> simp_all <;>
    first | linarith | exact ⟨by linarith, by linarith⟩

theorem chain3Step {v1 v2 v3 : ℚ} (hv3 : 1 ≤ v3) (hv2 : v3 ≤ v2) (hv1 : v2 ≤ v1)
    {p1 p2 p3 q1 q2 q3 : Bool} (m1 : p1 = true → q1 = true)
    (m2 : p2 = true → q2 = true) (m3 : p3 = true → q3 = true) :
    ((if p1 then v1 else if p2 then v2 else if p3 then v3 else 1) ≤
        (if q1 then v1 else if q2 then v2 else if q3 then v3 else 1)) ∧
      1 ≤ (if p1 then v1 else if p2 then v2 else if p3 then v3 else 1) := by
  cases p1 <;> cases p2 <;> cases p3 <;> cases q1 <;> cases q2 <;> cases q3 <;>
    simp_all <;> first | linarith | exact ⟨by linarith, by linarith⟩

theorem chain4Step {v1 v2 v3 v4 : ℚ} (hv4 : 1 ≤ v4) (hv3 : v4 ≤ v3)
    (hv2 : v3 ≤ v2) (hv1 : v2 ≤ v1)
    {p1 p2 p3 p4 q1 q2 q3 q4 : Bool} (m1 : p1 = true → q1 = true)
    (m2 : p2 = true → q2 = true) (m3 : p3 = true → q3 = true)
    (m4 : p4 = true → q4 = true) :
    ((if p1 then v1 else if p2 then v2 else if p3 then v3 else
        if p4 then v4 else 1) ≤
      (if q1 then v1 else if q2 then v2 else if q3 then v3 else
        if q4 then v4 else 1)) ∧
      1 ≤ (if p1 then v1 else if p2 then v2 else if p3 then v3 else
        if p4 then v4 else 1) := by
  cases p1 <;> cases p2 <;> cases p3 <;> cases p4 <;>
  cases q1 <;> cases q2 <;> cases q3 <;> cases q4 <;>
    simp_all <;> first | linarith | exact ⟨by linarith, by linarith⟩

theorem applyLifeSafety_hrprod (h : ℚ) (c : Concepts) :
    (((applyLifeSafety h c).2).map (fun g => g.hr)).prod =
      (if c.gasLeak then gasFactor.hr else 1) *
        (if c.fireSmoke then fireFactor.hr else 1) *
        (if c.carbonMonoxide then coFactor.hr else 1) *
        (if c.electricalShock then shockFactor.hr else 1) *
        (if c.sewage then sewageFactor.hr else 1) := by
  unfold applyLifeSafety
  simp only [step_snd_prod]
  simp

theorem applyActiveDamage_hrprod (h : ℚ) (c : Concepts) :
    (((applyActiveDamage h c).2).map (fun g => g.hr)).prod =
      (if c.waterSpreading then waterSpreadFactor.hr else 1) *
        (if c.ceilingDrip then ceilingDripFactor.hr else 1) *
        (if c.gettingWorse then worseFactor.hr else 1) *
        (if c.evacuated then evacuatedFactor.hr else 1) := by
  unfold applyActiveDamage
  simp only [step_snd_prod]
  simp

theorem applyVulnerability_hrprod (h : ℚ) (t : Tenant) :
    (((applyVulnerability h t).2).map (fun g => g.hr)).prod =
      (if t.hasMedicalCondition then medicalFactor.hr else 1) *
        (if t.hasInfant then infantFactor.hr else 1) *
        (if (t.isElderly || decide (75 ≤ t.age)) then elderlyFactor.hr else 1) *
        (if t.isPregnant then pregnantFactor.hr else 1) := by
  unfold applyVulnerability
  simp only [step_snd_prod]
  simp

theorem applyEnvironmental_hrprod (h : ℚ) (temp : ℚ) (trade : String)
    (c : Concepts) :
    (((applyEnvironmental h temp trade c).2).map (fun g => g.hr)).prod =
      (if (decide (temp < 40) && (decide (trade = "HVAC") || c.noHeat)) then
          extremeColdFactor.hr
        else if (decide (temp < 50) && (decide (trade = "HVAC") || c.noHeat)) then
          coldFactor.hr
        else 1) *
        (if (decide (95 < temp) && (decide (trade = "HVAC") || c.noAc)) then
          extremeHeatFactor.hr else 1) *
        (if (decide (temp < 32) && decide (trade = "PLUMBING")) then
          freezeFactor.hr else 1) := by
  unfold applyEnvironmental
  simp only [step_snd_prod]
  split_ifs <;> simp [extremeColdFactor, coldFactor]

theorem applyTiming_hrprod (h : ℚ) (t : Timing) :
    (((applyTiming h t).2).map (fun g => g.hr)).prod =
      (if t.isLateNight then lateNightFactor.hr
        else if t.isHoliday then holidayFactor.hr
        else if t.isAfterHours then afterHoursFactor.hr
        else if t.isWeekend then weekendFactor.hr
        else 1) := by
  unfold applyTiming
  split_ifs <;> simp

theorem applyRecurrence_hrprod (h : ℚ) (hist : History) (c : Concepts) :
    (((applyRecurrence h hist c).2).map (fun g => g.hr)).prod =
      (if (decide (3 ≤ hist.recentIssuesCount) || c.thirdTime) then
          thirdTimeFactor.hr
        else if (hist.previousRepairFailed || c.repairFailed) then
          repairFailedFactor.hr
        else if decide (1 ≤ hist.recentIssuesCount) then recentIssueFactor.hr
        else 1) := by
  unfold applyRecurrence
  split_ifs <;> simp_all

theorem applyProperty_hrprod (h : ℚ) (p : PropertyInfo) (trade : String)
    (c : Concepts) :
    (((applyProperty h p trade c).2).map (fun g => g.hr)).prod =
      (if c.structural then structuralFactor.hr else 1) *
        (if (decide (1 < p.floor) && decide (trade = "PLUMBING")) then
          upperFloorFactor.hr else 1) *
        (if decide (1 < p.totalUnits) then multiUnitFactor.hr else 1) := by
  unfold applyProperty
  simp only [step_snd_prod]
  simp

theorem applyEssentialService_hrprod (h : ℚ) (c : Concepts) :
    (((applyEssentialService h c).2).map (fun g => g.hr)).prod =
      (if c.lockedOut then lockedOutFactor.hr else 1) *
        (if c.noPower then noPowerFactor.hr else 1) *
        (if c.noWater then noWaterFactor.hr else 1) *
        (if c.noToilet then noToiletFactor.hr else 1) := by
  unfold applyEssentialService
  simp only [step_snd_prod]
  simp

theorem applyInteractions_irprod (h : ℚ) (sev : String)
    (fs : List PriorityFactor) (trade : String) (p : PropertyInfo)
    (t : Timing) :
    (((applyInteractions h sev fs trade p t).2).map (fun g => g.ir)).prod =
      (if (fs.any (fun f => f.category == "VULNERABILITY") &&
          fs.any (fun f => f.category == "ENVIRONMENTAL")) then
        vulnEnvIE.ir else 1) *
      (if (fs.any (fun f => strContains (strLower f.name) "water") &&
          (decide (trade = "ELECTRICAL") ||
            fs.any (fun f => strContains (strLower f.name) "electrical"))) then
        waterElecIE.ir else 1) *
      (if (fs.any (fun f => f.category == "RECURRENCE") &&
          (decide (sev = "HIGH") || decide (sev = "EMERGENCY"))) then
        recurSevIE.ir else 1) *
      (if (decide (1 < p.totalUnits) && fs.any (fun f =>
          strContains (strLower f.name) "spreading" ||
            strContains (strLower f.name) "worse")) then
        multiSpreadIE.ir else 1) *
      (if (t.isLateNight && decide (sev = "EMERGENCY")) then
        lateEmerIE.ir else 1) *
      (if decide (2 ≤ fs.countP (fun f => f.category == "VULNERABILITY")) then
        multiVulnIE.ir else 1) := by
  unfold applyInteractions
  simp only [istep_snd_prod]
  simp

/-- The hazard-ratio product over the applied factors, as an explicit
product of conditional factors of the input. -/
theorem applied_factors_hrprod (inp : PriorityInput) :
    (((calculatePriority inp).applied_factors).map (fun g => g.hr)).prod =
      ((if inp.concepts.gasLeak then gasFactor.hr else 1) *
        (if inp.concepts.fireSmoke then fireFactor.hr else 1) *
        (if inp.concepts.carbonMonoxide then coFactor.hr else 1) *
        (if inp.concepts.electricalShock then shockFactor.hr else 1) *
        (if inp.concepts.sewage then sewageFactor.hr else 1)) *
      ((if inp.concepts.waterSpreading then waterSpreadFactor.hr else 1) *
        (if inp.concepts.ceilingDrip then ceilingDripFactor.hr else 1) *
        (if inp.concepts.gettingWorse then worseFactor.hr else 1) *
        (if inp.concepts.evacuated then evacuatedFactor.hr else 1)) *
      ((if inp.tenant.hasMedicalCondition then medicalFactor.hr else 1) *
        (if inp.tenant.hasInfant then infantFactor.hr else 1) *
        (if (inp.tenant.isElderly || decide (75 ≤ inp.tenant.age)) then
          elderlyFactor.hr else 1) *
        (if inp.tenant.isPregnant then pregnantFactor.hr else 1)) *
      ((if (decide (inp.temperature < 40) &&
            (decide (strUpper inp.trade = "HVAC") || inp.concepts.noHeat)) then
          extremeColdFactor.hr
        else if (decide (inp.temperature < 50) &&
            (decide (strUpper inp.trade = "HVAC") || inp.concepts.noHeat)) then
          coldFactor.hr
        else 1) *
        (if (decide (95 < inp.temperature) &&
            (decide (strUpper inp.trade = "HVAC") || inp.concepts.noAc)) then
          extremeHeatFactor.hr else 1) *
        (if (decide (inp.temperature < 32) &&
            decide (strUpper inp.trade = "PLUMBING")) then
          freezeFactor.hr else 1)) *
      (if inp.timing.isLateNight then lateNightFactor.hr
        else if inp.timing.isHoliday then holidayFactor.hr
        else if inp.timing.isAfterHours then afterHoursFactor.hr
        else if inp.timing.isWeekend then weekendFactor.hr
        else 1) *
      (if (decide (3 ≤ inp.history.recentIssuesCount) ||
            inp.concepts.thirdTime) then thirdTimeFactor.hr
        else if (inp.history.previousRepairFailed ||
            inp.concepts.repairFailed) then repairFailedFactor.hr
        else if decide (1 ≤ inp.history.recentIssuesCount) then
          recentIssueFactor.hr
        else 1) *
      ((if inp.concepts.structural then structuralFactor.hr else 1) *
        (if (decide (1 < inp.property.floor) &&
            decide (strUpper inp.trade = "PLUMBING")) then
          upperFloorFactor.hr else 1) *
        (if decide (1 < inp.property.totalUnits) then
          multiUnitFactor.hr else 1)) *
      ((if inp.concepts.lockedOut then lockedOutFactor.hr else 1) *
        (if inp.concepts.noPower then noPowerFactor.hr else 1) *
        (if inp.concepts.noWater then noWaterFactor.hr else 1) *
        (if inp.concepts.noToilet then noToiletFactor.hr else 1)) := by
  simp only [calculatePriority, List.map_append, List.prod_append]
  rw [applyLifeSafety_hrprod, applyActiveDamage_hrprod,
    applyVulnerability_hrprod, applyEnvironmental_hrprod, applyTiming_hrprod,
    applyRecurrence_hrprod, applyProperty_hrprod, applyEssentialService_hrprod]

/-- The interaction-ratio product over the applied interactions, as an
explicit product of conditional factors of the applied factors and the
input fields. -/
theorem applied_interactions_irprod (inp : PriorityInput) :
    (((calculatePriority inp).applied_interactions).map (fun g => g.ir)).prod =
      (if (((calculatePriority inp).applied_factors).any
            (fun f => f.category == "VULNERABILITY") &&
          ((calculatePriority inp).applied_factors).any
            (fun f => f.category == "ENVIRONMENTAL")) then
        vulnEnvIE.ir else 1) *
      (if (((calculatePriority inp).applied_factors).any
            (fun f => strContains (strLower f.name) "water") &&
          (decide (strUpper inp.trade = "ELECTRICAL") ||
            ((calculatePriority inp).applied_factors).any
              (fun f => strContains (strLower f.name) "electrical"))) then
        waterElecIE.ir else 1) *
      (if (((calculatePriority inp).applied_factors).any
            (fun f => f.category == "RECURRENCE") &&
          (decide (strUpper inp.severity = "HIGH") ||
            decide (strUpper inp.severity = "EMERGENCY"))) then
        recurSevIE.ir else 1) *
      (if (decide (1 < inp.property.totalUnits) &&
          ((calculatePriority inp).applied_factors).any (fun f =>
            strContains (strLower f.name) "spreading" ||
              strContains (strLower f.name) "worse")) then
        multiSpreadIE.ir else 1) *
      (if (inp.timing.isLateNight &&
          decide (strUpper inp.severity = "EMERGENCY")) then
        lateEmerIE.ir else 1) *
      (if decide (2 ≤ ((calculatePriority inp).applied_factors).countP
          (fun f => f.category == "VULNERABILITY")) then
        multiVulnIE.ir else 1) := by
  simp only [calculatePriority]
  rw [applyInteractions_irprod]

/-- The combined hazard is monotone under the pointwise input order. -/
theorem combined_mono {x y : PriorityInput} (hle : InputLe x y) :
    (calculatePriority x).combined_hazard ≤
      (calculatePriority y).combined_hazard := by
  have hvul := hasVuln_mono hle
  have henv := hasEnv_mono hle
  have hrec := hasRecur_mono hle
  have hwat := hasWater_mono hle
  have hele := hasElecName_mono hle
  have hspr := hasSpread_mono hle
  have hcnt := countV_mono hle
  obtain ⟨hsev, htrade, eg, ef, eco, esh, esw, ews, ecd, egw, eev, enh, ena,
    enw, enp, ent, elo, est, ett, erf, emed, einf, eeld, epreg, hage, ht40,
    ht50, ht95, ht32, hfl, hun, eln, ehol, eah, ewe, hc1, hc3, eprf⟩ := hle
  have hbase : (calculatePriority x).base_hazard =
      (calculatePriority y).base_hazard := by
    show baseHazard (strUpper x.severity) = baseHazard (strUpper y.severity)
    rw [hsev]
  rw [combined_eq_prod, combined_eq_prod,
    applied_factors_hrprod, applied_factors_hrprod,
    applied_interactions_irprod, applied_interactions_irprod,
    hbase, hsev, htrade]
  have held : (x.tenant.isElderly || decide (75 ≤ x.tenant.age)) = true →
      (y.tenant.isElderly || decide (75 ≤ y.tenant.age)) = true := by
    simp only [Bool.or_eq_true, decide_eq_true_eq]
    exact fun h => h.imp eeld hage
  have mcold : (decide (x.temperature < 40) &&
        (decide (strUpper y.trade = "HVAC") || x.concepts.noHeat)) = true →
      (decide (y.temperature < 40) &&
        (decide (strUpper y.trade = "HVAC") || y.concepts.noHeat)) = true := by
    simp only [Bool.and_eq_true, Bool.or_eq_true, decide_eq_true_eq]
    exact fun h => ⟨ht40 h.1, h.2.imp id enh⟩
  have mcool : (decide (x.temperature < 50) &&
        (decide (strUpper y.trade = "HVAC") || x.concepts.noHeat)) = true →
      (decide (y.temperature < 50) &&
        (decide (strUpper y.trade = "HVAC") || y.concepts.noHeat)) = true := by
    simp only [Bool.and_eq_true, Bool.or_eq_true, decide_eq_true_eq]
    exact fun h => ⟨ht50 h.1, h.2.imp id enh⟩
  have mheat : (decide (95 < x.temperature) &&
        (decide (strUpper y.trade = "HVAC") || x.concepts.noAc)) = true →
      (decide (95 < y.temperature) &&
        (decide (strUpper y.trade = "HVAC") || y.concepts.noAc)) = true := by
    simp only [Bool.and_eq_true, Bool.or_eq_true, decide_eq_true_eq]
    exact fun h => ⟨ht95 h.1, h.2.imp id ena⟩
  have mrec1 : (decide (3 ≤ x.history.recentIssuesCount) ||
        x.concepts.thirdTime) = true →
      (decide (3 ≤ y.history.recentIssuesCount) ||
        y.concepts.thirdTime) = true := by
    simp only [Bool.or_eq_true, decide_eq_true_eq]
    exact fun h => h.imp hc3 ett
  have mrec2 : (x.history.previousRepairFailed ||
        x.concepts.repairFailed) = true →
      (y.history.previousRepairFailed || y.concepts.repairFailed) = true := by
    simp only [Bool.or_eq_true]
    exact fun h => h.imp eprf erf
  have mfreeze : (decide (x.temperature < 32) &&
      decide (strUpper y.trade = "PLUMBING")) = true →
      (decide (y.temperature < 32) &&
      decide (strUpper y.trade = "PLUMBING")) = true := by
    simp only [Bool.and_eq_true, decide_eq_true_eq]
    exact fun h => ⟨ht32 h.1, h.2⟩
  have mrec3 : decide (1 ≤ x.history.recentIssuesCount) = true →
      decide (1 ≤ y.history.recentIssuesCount) = true := by
    simp only [decide_eq_true_eq]
    exact hc1
  have mfloor : (decide (1 < x.property.floor) &&
      decide (strUpper y.trade = "PLUMBING")) = true →
      (decide (1 < y.property.floor) &&
      decide (strUpper y.trade = "PLUMBING")) = true := by
    simp only [Bool.and_eq_true, decide_eq_true_eq]
    exact fun h => ⟨hfl h.1, h.2⟩
  have munits : decide (1 < x.property.totalUnits) = true →
      decide (1 < y.property.totalUnits) = true := by
    simp only [decide_eq_true_eq]
    exact hun
  have hF := mulStep (mulStep (mulStep (mulStep (mulStep (mulStep (mulStep
    (mulStep (mulStep (mulStep (mulStep
      (iteStep eg (show (1:ℚ) ≤ gasFactor.hr by norm_num [gasFactor]))
      (iteStep ef (show (1:ℚ) ≤ fireFactor.hr by norm_num [fireFactor])))
      (iteStep eco (show (1:ℚ) ≤ coFactor.hr by norm_num [coFactor])))
      (iteStep esh (show (1:ℚ) ≤ shockFactor.hr by norm_num [shockFactor])))
      (iteStep esw (show (1:ℚ) ≤ sewageFactor.hr by norm_num [sewageFactor])))
    (mulStep (mulStep (mulStep
      (iteStep ews (show (1:ℚ) ≤ waterSpreadFactor.hr by
        norm_num [waterSpreadFactor]))
      (iteStep ecd (show (1:ℚ) ≤ ceilingDripFactor.hr by
        norm_num [ceilingDripFactor])))
      (iteStep egw (show (1:ℚ) ≤ worseFactor.hr by norm_num [worseFactor])))
      (iteStep eev (show (1:ℚ) ≤ evacuatedFactor.hr by
        norm_num [evacuatedFactor]))))
    (mulStep (mulStep (mulStep
      (iteStep emed (show (1:ℚ) ≤ medicalFactor.hr by
        norm_num [medicalFactor]))
      (iteStep einf (show (1:ℚ) ≤ infantFactor.hr by norm_num [infantFactor])))
      (iteStep held (show (1:ℚ) ≤ elderlyFactor.hr by
        norm_num [elderlyFactor])))
      (iteStep epreg (show (1:ℚ) ≤ pregnantFactor.hr by
        norm_num [pregnantFactor]))))
    (mulStep (mulStep
      (chain2Step (show (1:ℚ) ≤ coldFactor.hr by norm_num [coldFactor])
        (show coldFactor.hr ≤ extremeColdFactor.hr by
          norm_num [coldFactor, extremeColdFactor]) mcold mcool)
      (iteStep mheat (show (1:ℚ) ≤ extremeHeatFactor.hr by
        norm_num [extremeHeatFactor])))
      (iteStep mfreeze (show (1:ℚ) ≤ freezeFactor.hr by
        norm_num [freezeFactor]))))
    (chain4Step (show (1:ℚ) ≤ weekendFactor.hr by norm_num [weekendFactor])
      (show weekendFactor.hr ≤ afterHoursFactor.hr by
        norm_num [weekendFactor, afterHoursFactor])
      (show afterHoursFactor.hr ≤ holidayFactor.hr by
        norm_num [afterHoursFactor, holidayFactor])
      (show holidayFactor.hr ≤ lateNightFactor.hr by
        norm_num [holidayFactor, lateNightFactor])
      eln ehol eah ewe))
    (chain3Step (show (1:ℚ) ≤ recentIssueFactor.hr by
        norm_num [recentIssueFactor])
      (show recentIssueFactor.hr ≤ repairFailedFactor.hr by
        norm_num [recentIssueFactor, repairFailedFactor])
      (show repairFailedFactor.hr ≤ thirdTimeFactor.hr by
        norm_num [repairFailedFactor, thirdTimeFactor])
      mrec1 mrec2 mrec3))
    (mulStep (mulStep
      (iteStep est (show (1:ℚ) ≤ structuralFactor.hr by
        norm_num [structuralFactor]))
      (iteStep mfloor (show (1:ℚ) ≤ upperFloorFactor.hr by
        norm_num [upperFloorFactor])))
      (iteStep munits (show (1:ℚ) ≤ multiUnitFactor.hr by
        norm_num [multiUnitFactor]))))
    (mulStep (mulStep (mulStep
      (iteStep elo (show (1:ℚ) ≤ lockedOutFactor.hr by
        norm_num [lockedOutFactor]))
      (iteStep enp (show (1:ℚ) ≤ noPowerFactor.hr by norm_num [noPowerFactor])))
      (iteStep enw (show (1:ℚ) ≤ noWaterFactor.hr by norm_num [noWaterFactor])))
      (iteStep ent (show (1:ℚ) ≤ noToiletFactor.hr by
        norm_num [noToiletFactor])))
  have mint1 : (((calculatePriority x).applied_factors).any
        (fun f => f.category == "VULNERABILITY") &&
      ((calculatePriority x).applied_factors).any
        (fun f => f.category == "ENVIRONMENTAL")) = true →
      (((calculatePriority y).applied_factors).any
        (fun f => f.category == "VULNERABILITY") &&
      ((calculatePriority y).applied_factors).any
        (fun f => f.category == "ENVIRONMENTAL")) = true := by
    simp only [Bool.and_eq_true]
    exact fun h => ⟨hvul h.1, henv h.2⟩
  have mint2 : (((calculatePriority x).applied_factors).any
        (fun f => strContains (strLower f.name) "water") &&
      (decide (strUpper y.trade = "ELECTRICAL") ||
        ((calculatePriority x).applied_factors).any
          (fun f => strContains (strLower f.name) "electrical"))) = true →
      (((calculatePriority y).applied_factors).any
        (fun f => strContains (strLower f.name) "water") &&
      (decide (strUpper y.trade = "ELECTRICAL") ||
        ((calculatePriority y).applied_factors).any
          (fun f => strContains (strLower f.name) "electrical"))) = true := by
    simp only [Bool.and_eq_true, Bool.or_eq_true]
    exact fun h => ⟨hwat h.1, h.2.imp id hele⟩
  have mint3 : (((calculatePriority x).applied_factors).any
        (fun f => f.category == "RECURRENCE") &&
      (decide (strUpper y.severity = "HIGH") ||
        decide (strUpper y.severity = "EMERGENCY"))) = true →
      (((calculatePriority y).applied_factors).any
        (fun f => f.category == "RECURRENCE") &&
      (decide (strUpper y.severity = "HIGH") ||
        decide (strUpper y.severity = "EMERGENCY"))) = true := by
    simp only [Bool.and_eq_true]
    exact fun h => ⟨hrec h.1, h.2⟩
  have mint4 : (decide (1 < x.property.totalUnits) &&
      ((calculatePriority x).applied_factors).any (fun f =>
        strContains (strLower f.name) "spreading" ||
          strContains (strLower f.name) "worse")) = true →
      (decide (1 < y.property.totalUnits) &&
      ((calculatePriority y).applied_factors).any (fun f =>
        strContains (strLower f.name) "spreading" ||
          strContains (strLower f.name) "worse")) = true := by
    simp only [Bool.and_eq_true, decide_eq_true_eq]
    exact fun h => ⟨hun h.1, hspr h.2⟩
  have mint5 : (x.timing.isLateNight &&
        decide (strUpper y.severity = "EMERGENCY")) = true →
      (y.timing.isLateNight &&
        decide (strUpper y.severity = "EMERGENCY")) = true := by
    simp only [Bool.and_eq_true]
    exact fun h => ⟨eln h.1, h.2⟩
  have mint6 : decide (2 ≤ ((calculatePriority x).applied_factors).countP
        (fun f => f.category == "VULNERABILITY")) = true →
      decide (2 ≤ ((calculatePriority y).applied_factors).countP
        (fun f => f.category == "VULNERABILITY")) = true := by
    simp only [decide_eq_true_eq]
    exact fun h => le_trans h hcnt
  have hI := mulStep (mulStep (mulStep (mulStep (mulStep
    (iteStep mint1 (show (1:ℚ) ≤ vulnEnvIE.ir by norm_num [vulnEnvIE]))
    (iteStep mint2 (show (1:ℚ) ≤ waterElecIE.ir by norm_num [waterElecIE])))
    (iteStep mint3 (show (1:ℚ) ≤ recurSevIE.ir by norm_num [recurSevIE])))
    (iteStep mint4 (show (1:ℚ) ≤ multiSpreadIE.ir by
      norm_num [multiSpreadIE])))
    (iteStep mint5 (show (1:ℚ) ≤ lateEmerIE.ir by norm_num [lateEmerIE])))
    (iteStep mint6 (show (1:ℚ) ≤ multiVulnIE.ir by norm_num [multiVulnIE]))
  have hb : (0:ℚ) < (calculatePriority y).base_hazard := by
    have hbb : (calculatePriority y).base_hazard =
        baseHazard (strUpper y.severity) := rfl
    rw [hbb]
    exact baseHazard_pos _
  exact mul_le_mul (mul_le_mul_of_nonneg_left hF.1 hb.le) hI.1
    (by linarith [hI.2])
    (mul_pos hb (lt_of_lt_of_le one_pos (le_trans hF.2 hF.1))).le

/-- Setting a single trigger yields a pointwise-larger input. -/
theorem inputLe_setTrigger (inp : PriorityInput) (tr : Trigger) :
    InputLe inp (setTrigger inp tr) := by
  cases tr <;> simp [InputLe, setTrigger]

/-- C7: adding one more satisfied triggering condition to an otherwise
identical input never decreases the priority score.  The order `InputLe`
covers every triggering condition of every factor: the Boolean flags
(keyword concepts, vulnerability, timing, failed repair) and the numeric
thresholds (recent-issue counts of 1 and 3, more than one unit, an
above-first floor with PLUMBING, the four temperature thresholds, age at
least 75); a pair that is identical except that the second satisfies
exactly one more such condition is a special case of the order. -/
theorem C7_single_trigger_monotone (x y : PriorityInput)
    (hle : InputLe x y) :
    (calculatePriority x).priority_score ≤
      (calculatePriority y).priority_score := by
  have hc := combined_mono hle
  have hp := combined_pos x
  have h1 : (calculatePriority x).priority_score =
      100 * (calculatePriority x).combined_hazard /
        ((calculatePriority x).combined_hazard + 1) := rfl
  have h2 : (calculatePriority y).priority_score =
      100 * (calculatePriority y).combined_hazard /
        ((calculatePriority y).combined_hazard + 1) := rfl
  rw [h1, h2]
  exact score_mono_aux hp hc

/-- C7 witness: making the numeric condition `1 ≤ recent_issues_count`
newly true (recent-issue recurrence factor, hazard ratio 1.5) on the
concrete cold-plumbing request does not decrease the score. -/
theorem C7_witness :
    InputLe coldPlumbingInput coldPlumbingRecur ∧
      (calculatePriority coldPlumbingInput).priority_score ≤
        (calculatePriority coldPlumbingRecur).priority_score :=
  ⟨by unfold InputLe; (repeat' apply And.intro); all_goals decide,
    C7_single_trigger_monotone coldPlumbingInput coldPlumbingRecur
      (by unfold InputLe; (repeat' apply And.intro); all_goals decide)⟩

end Rentmatrix
